import Mathlib

/-!
# Verification of the bike-fit transfer calculator

Shallow embedding of the two core functions of the repository,
`calculateStemRequirements` (stem/spacer solver) and `calculateBikeSetup`
(setup calculator), together with the record types they consume and produce.

Modelling conventions:
* JavaScript numbers are modelled as real numbers (`ℝ`); all inputs are finite.
* `Math.round` is `⌊x + 1/2⌋` (JavaScript rounds half toward positive infinity).
* A JavaScript `x || d` fallback on a number is explicit: it yields `d` exactly
  when `x` is `0` (or when the optional field is absent); `0` is the only falsy
  finite number that can occur here.
* The human-readable note and warning strings are modelled by the inductive
  type `Note`; each constructor carries the numeric data that the original
  template string interpolates.
* The nested `for` loops of the solver are a left fold over the explicit list
  of `(spacer, stemAngle)` grid points, in the source's iteration order
  (spacers ascending in steps of 5, then angles ascending in steps of 1),
  with the source's strict-`<` replacement rule, so ties keep the first-found
  candidate exactly as the loop does.
-/

/-- JavaScript `x || d` for an always-present number field: yields `d` exactly
when `x = 0`. -/
noncomputable def jsOrNum (x d : ℝ) : ℝ := if x = 0 then d else x

/-- JavaScript `x || d` for an optional number field: yields `d` when the field
is absent or `0`. -/
noncomputable def jsOrOpt (x : Option ℝ) (d : ℝ) : ℝ :=
  match x with
  | some v => jsOrNum v d
  | none => d

/-- Degree-to-radian conversion `(d * Math.PI) / 180` used throughout the
source. -/
noncomputable def degToRad (d : ℝ) : ℝ := d * Real.pi / 180

/-- JavaScript `Math.round`: floor of `x + 1/2` (half rounds up). -/
noncomputable def jsRound (x : ℝ) : ℝ := ((⌊x + 1/2⌋ : ℤ) : ℝ)

/-- The note and warning strings produced by the calculator, with the numeric
values each template string interpolates:
* `exactFitNotAchievable` — "Exact fit position may not be achievable with standard components"
* `stackDeltaNote d` — "Handlebar will be (|d| toFixed 0)mm (higher/lower as d > 0) than original fit"
* `reachDeltaNote d` — "Handlebar will be (|d| toFixed 0)mm (further/closer as d > 0) than original fit"
* `nearestCommonStem n` — "Nearest common stem length: (n)mm"
* `staSteeper25 f e` — "Frame STA (f°) is steeper than fit (e°) - use 25mm setback seatpost"
* `staSteeper20 f e` — "Frame STA (f°) is steeper than fit (e°) - use 20mm setback seatpost"
* `staSlacker0 f e` — "Frame STA (f°) is slacker than fit (e°) - use 0mm offset seatpost, may need forward saddle position"
* `forwardSaddle` — "Forward saddle position - ensure saddle rails allow this adjustment"
* `lowSeatpostExtension e` — "Low seatpost extension ((e)mm) - check minimum insertion depth"
* `highSeatpostExtension e` — "High seatpost extension ((e)mm) - consider a longer seat tube" -/
inductive Note where
  | exactFitNotAchievable : Note
  | stackDeltaNote : ℝ → Note
  | reachDeltaNote : ℝ → Note
  | nearestCommonStem : ℝ → Note
  | staSteeper25 : ℝ → ℝ → Note
  | staSteeper20 : ℝ → ℝ → Note
  | staSlacker0 : ℝ → ℝ → Note
  | forwardSaddle : Note
  | lowSeatpostExtension : ℝ → Note
  | highSeatpostExtension : ℝ → Note

/-- The `fitPosition` record of `RetulFitData` (the fields the calculator
reads; the optional grip measurements are never used by the two functions
under verification and are omitted). -/
structure FitPosition where
  saddleHeight : ℝ
  saddleSetback : ℝ
  saddleAngle : ℝ
  handlebarStack : ℝ
  handlebarReach : ℝ
  handlebarDrop : ℝ
  effectiveSeatTubeAngle : ℝ

/-- `FrameGeometry` from the source: required stack/reach/head-tube angle and
optional seat-tube data. -/
structure FrameGeometry where
  stackMm : ℝ
  reachMm : ℝ
  headTubeAngle : ℝ
  headTubeLengthMm : Option ℝ := none
  seatTubeAngle : Option ℝ := none
  seatTubeLengthMm : Option ℝ := none
  bbDropMm : Option ℝ := none

/-- The options object of `calculateStemRequirements` with the source's
destructuring defaults (`maxStemLength = 140`, `minStemLength = 60`,
`maxSpacers = 50`, `preferredStemAngle = -6`). A caller-supplied value is
used as given, even when it is `0`, exactly like destructuring defaults. -/
structure SolverOptions where
  maxStemLength : ℝ := 140
  minStemLength : ℝ := 60
  maxSpacers : ℝ := 50
  preferredStemAngle : ℝ := -6

/-- `StemCalculation`, the solver's result record. -/
structure StemCalculation where
  stemLength : ℝ
  stemAngle : ℝ
  spacerStack : ℝ
  stackDelta : ℝ
  reachDelta : ℝ
  isAchievable : Bool
  notes : List Note

/-- The `originalBike` sub-record of `RetulFitData` (only the fields the
calculator reads). -/
structure OriginalBike where
  make : String
  model : String
  size : String

/-- `RetulFitData` restricted to the fields `calculateBikeSetup` reads. -/
structure RetulFitData where
  fitDate : Option String := none
  originalBike : Option OriginalBike := none
  frameStack : ℝ
  frameReach : ℝ
  fitPosition : FitPosition

/-- `BikeSetupCalculation`, the setup calculator's result record. -/
structure BikeSetupCalculation where
  stem : StemCalculation
  saddleHeight : ℝ
  seatpostExtension : Option ℝ
  saddleSetback : ℝ
  saddleAngle : ℝ
  effectiveSeatTubeAngle : ℝ
  seatpostOffsetNeeded : ℝ
  originalFitBike : Option String
  originalFitDate : Option String
  notes : List Note
  warnings : List Note

/-- The quantities of `calculateStemRequirements` that the search loop closes
over: the required gains, the defaulted head-tube angle, and the solver
options. -/
structure SearchCtx where
  requiredStackGain : ℝ
  requiredReachGain : ℝ
  headTubeAngle : ℝ
  minStemLength : ℝ
  maxStemLength : ℝ
  maxSpacers : ℝ
  preferredStemAngle : ℝ

/-- Builds the search context from the solver's arguments, applying the
`headTubeAngle || 73` default of the source. -/
noncomputable def mkCtx (fitPosition : FitPosition) (newFrame : FrameGeometry)
    (options : SolverOptions) : SearchCtx :=
  { requiredStackGain := fitPosition.handlebarStack - newFrame.stackMm
    requiredReachGain := fitPosition.handlebarReach - newFrame.reachMm
    headTubeAngle := jsOrNum newFrame.headTubeAngle 73
    minStemLength := options.minStemLength
    maxStemLength := options.maxStemLength
    maxSpacers := options.maxSpacers
    preferredStemAngle := options.preferredStemAngle }

/-- Effective stem angle from horizontal, in radians:
`((headTubeAngle - 90 + stemAngle) * Math.PI) / 180`. -/
noncomputable def stemEffectiveAngle (headTubeAngle stemAngle : ℝ) : ℝ :=
  degToRad (headTubeAngle - 90 + stemAngle)

/-- The averaged stem-length estimate of the loop body: average of
`stemReachNeeded / cos(eff)` and, when `|sin(eff)| > 0.1`,
`stemStackNeeded / sin(eff)` (else the reach estimate is used twice). -/
noncomputable def averagedStemLength (ctx : SearchCtx) (spacers stemAngle : ℝ) : ℝ :=
  let htaRad := degToRad ctx.headTubeAngle
  let eff := stemEffectiveAngle ctx.headTubeAngle stemAngle
  let stemStackNeeded := ctx.requiredStackGain - spacers * Real.sin htaRad
  let stemReachNeeded := ctx.requiredReachGain - spacers * Real.cos htaRad
  let stemLengthFromReach := stemReachNeeded / Real.cos eff
  let stemLengthFromStack :=
    if 0.1 < |Real.sin eff| then stemStackNeeded / Real.sin eff
    else stemLengthFromReach
  (stemLengthFromReach + stemLengthFromStack) / 2

/-- A tracked best solution: the source's `bestSolution` object (`stemLength`
is stored already rounded, exactly as the source stores
`Math.round(stemLength)`). -/
structure Candidate where
  spacers : ℝ
  stemLength : ℝ
  stemAngle : ℝ
  error : ℝ

/-- One iteration of the inner loop body: `none` when the candidate is skipped
(near-vertical stem, `|cos eff| < 0.1`) or its averaged stem length falls
outside `[minStemLength, maxStemLength]`; otherwise the candidate with its
scored error (fit error computed from the unrounded length, plus the
angle-preference penalty). -/
noncomputable def evalCandidate (ctx : SearchCtx) (spacers stemAngle : ℝ) :
    Option Candidate :=
  let htaRad := degToRad ctx.headTubeAngle
  let eff := stemEffectiveAngle ctx.headTubeAngle stemAngle
  if |Real.cos eff| < 0.1 then none
  else
    let stemLength := averagedStemLength ctx spacers stemAngle
    if ctx.minStemLength ≤ stemLength ∧ stemLength ≤ ctx.maxStemLength then
      let actualReachGain := spacers * Real.cos htaRad + stemLength * Real.cos eff
      let actualStackGain := spacers * Real.sin htaRad + stemLength * Real.sin eff
      let totalError := |actualReachGain - ctx.requiredReachGain| +
        |actualStackGain - ctx.requiredStackGain|
      let anglePenalty := |stemAngle - ctx.preferredStemAngle| * 0.5
      some { spacers := spacers, stemLength := jsRound stemLength,
             stemAngle := stemAngle, error := totalError + anglePenalty }
    else none

/-- Spacer heights visited by the outer loop:
`0, 5, 10, ...` while `≤ maxSpacers`. -/
noncomputable def spacerGrid (maxSpacers : ℝ) : List ℝ :=
  if 0 ≤ maxSpacers then
    (List.range (⌊maxSpacers / 5⌋₊ + 1)).map (fun i : ℕ => 5 * (i : ℝ))
  else []

/-- Stem angles visited by the inner loop: `-17, -16, ..., 17`. -/
noncomputable def angleGrid : List ℝ :=
  (List.range 35).map (fun i : ℕ => (i : ℝ) - 17)

/-- The full `(spacers, stemAngle)` grid in iteration order: spacers ascending,
then angles ascending. -/
noncomputable def gridPairs (maxSpacers : ℝ) : List (ℝ × ℝ) :=
  (spacerGrid maxSpacers).flatMap (fun s => angleGrid.map (fun a => (s, a)))

/-- The source's replacement rule
`if (!bestSolution || scoredError < bestSolution.error)`. -/
noncomputable def pickBetter (best : Option Candidate) (c : Option Candidate) :
    Option Candidate :=
  match best, c with
  | none, c => c
  | some b, none => some b
  | some b, some c => if c.error < b.error then some c else some b

/-- The double loop of the solver as a fold over the grid in iteration order. -/
noncomputable def searchBest (ctx : SearchCtx) : Option Candidate :=
  (gridPairs ctx.maxSpacers).foldl
    (fun best p => pickBetter best (evalCandidate ctx p.1 p.2)) none

/-- JavaScript `commonStemLengths.reduce(...)` without an initial value: the
head `70` seeds the accumulator and the strict `<` keeps the earlier entry on
ties. -/
noncomputable def nearestCommonStemLength (stemLength : ℝ) : ℝ :=
  ([80, 90, 100, 110, 120, 130, 140] : List ℝ).foldl
    (fun prev curr => if |curr - stemLength| < |prev - stemLength| then curr else prev)
    70

/-- The fallback result of `calculateStemRequirements`: max spacers, a 100 mm
stem at the preferred angle, deltas computed as achieved minus target,
`isAchievable = false`, and the not-achievable note. -/
noncomputable def fallbackResult (fitPosition : FitPosition)
    (newFrame : FrameGeometry) (options : SolverOptions) : StemCalculation :=
  let ctx := mkCtx fitPosition newFrame options
  let htaRad := degToRad ctx.headTubeAngle
  let defaultStemLength : ℝ := 100
  let defaultStemAngle := options.preferredStemAngle
  let effectiveAngle := stemEffectiveAngle ctx.headTubeAngle defaultStemAngle
  let spacerStackContrib := options.maxSpacers * Real.sin htaRad
  let spacerReachContrib := options.maxSpacers * Real.cos htaRad
  let stemReachContrib := defaultStemLength * Real.cos effectiveAngle
  let stemStackContrib := defaultStemLength * Real.sin effectiveAngle
  let achievableStack := newFrame.stackMm + spacerStackContrib + stemStackContrib
  let achievableReach := newFrame.reachMm + spacerReachContrib + stemReachContrib
  { stemLength := defaultStemLength
    stemAngle := defaultStemAngle
    spacerStack := options.maxSpacers
    stackDelta := achievableStack - fitPosition.handlebarStack
    reachDelta := achievableReach - fitPosition.handlebarReach
    isAchievable := false
    notes := [Note.exactFitNotAchievable] }

/-- The main-path result of `calculateStemRequirements` for the winning
candidate: deltas recomputed from the stored (rounded) stem length and then
rounded, achievability from the unrounded deltas, and the three optional
notes in source order. -/
noncomputable def mainResult (fitPosition : FitPosition)
    (newFrame : FrameGeometry) (options : SolverOptions)
    (best : Candidate) : StemCalculation :=
  let ctx := mkCtx fitPosition newFrame options
  let htaRad := degToRad ctx.headTubeAngle
  let effectiveAngle := stemEffectiveAngle ctx.headTubeAngle best.stemAngle
  let spacerStackContrib := best.spacers * Real.sin htaRad
  let spacerReachContrib := best.spacers * Real.cos htaRad
  let stemReachContrib := best.stemLength * Real.cos effectiveAngle
  let stemStackContrib := best.stemLength * Real.sin effectiveAngle
  let achievableStack := newFrame.stackMm + spacerStackContrib + stemStackContrib
  let achievableReach := newFrame.reachMm + spacerReachContrib + stemReachContrib
  let stackDelta := achievableStack - fitPosition.handlebarStack
  let reachDelta := achievableReach - fitPosition.handlebarReach
  let notesStack := if 5 < |stackDelta| then [Note.stackDeltaNote stackDelta] else []
  let notesReach := if 5 < |reachDelta| then [Note.reachDeltaNote reachDelta] else []
  let nearestCommon := nearestCommonStemLength best.stemLength
  let notesCommon :=
    if nearestCommon ≠ best.stemLength then [Note.nearestCommonStem nearestCommon] else []
  { stemLength := best.stemLength
    stemAngle := best.stemAngle
    spacerStack := best.spacers
    stackDelta := jsRound stackDelta
    reachDelta := jsRound reachDelta
    isAchievable := if |stackDelta| ≤ 10 ∧ |reachDelta| ≤ 10 then true else false
    notes := notesStack ++ notesReach ++ notesCommon }

/-- `calculateStemRequirements` from the source: grid search for the best
stem/spacer combination; the fallback configuration when no grid candidate
has an averaged stem length within bounds, the main result otherwise. -/
noncomputable def calculateStemRequirements (fitPosition : FitPosition)
    (newFrame : FrameGeometry) (options : SolverOptions) : StemCalculation :=
  match searchBest (mkCtx fitPosition newFrame options) with
  | none => fallbackResult fitPosition newFrame options
  | some best => mainResult fitPosition newFrame options best

/-- The seatpost-extension computation of `calculateBikeSetup`: only when
`seatTubeLengthMm` is truthy (present and nonzero); the projection angle is
`seatTubeAngle || effectiveSeatTubeAngle || 73`. -/
noncomputable def setupSeatpostExtension (fitData : RetulFitData)
    (newFrame : FrameGeometry) : Option ℝ :=
  match newFrame.seatTubeLengthMm with
  | some seatTubeLengthMm =>
      if seatTubeLengthMm = 0 then none
      else
        let effectiveSTA := fitData.fitPosition.effectiveSeatTubeAngle
        let seatTubeAngle := jsOrOpt newFrame.seatTubeAngle (jsOrNum effectiveSTA 73)
        let staRad := degToRad seatTubeAngle
        let projectedSaddleHeight := fitData.fitPosition.saddleHeight / Real.sin staRad
        some (jsRound (projectedSaddleHeight - seatTubeLengthMm))
  | none => none

/-- The warnings of `calculateBikeSetup`: emitted for a computed seatpost
extension below 50 or above 200. -/
noncomputable def setupWarnings (fitData : RetulFitData)
    (newFrame : FrameGeometry) : List Note :=
  match setupSeatpostExtension fitData newFrame with
  | some e =>
      (if e < 50 then [Note.lowSeatpostExtension e] else []) ++
      (if 200 < e then [Note.highSeatpostExtension e] else [])
  | none => []

/-- The frame seat-tube angle with the source's `|| 73` fallback. -/
noncomputable def setupFrameSTA (newFrame : FrameGeometry) : ℝ :=
  jsOrOpt newFrame.seatTubeAngle 73

/-- `staDifference = effectiveSTA - frameSTA` from the source. -/
noncomputable def setupStaDifference (fitData : RetulFitData)
    (newFrame : FrameGeometry) : ℝ :=
  fitData.fitPosition.effectiveSeatTubeAngle - setupFrameSTA newFrame

/-- `setbackDifference = staDifference * (saddleHeight * tan(1°))` from the
source. -/
noncomputable def setupSetbackDifference (fitData : RetulFitData)
    (newFrame : FrameGeometry) : ℝ :=
  setupStaDifference fitData newFrame *
    (fitData.fitPosition.saddleHeight * Real.tan (degToRad 1))

/-- The seatpost-offset recommendation of `calculateBikeSetup`: the offset in
millimeters together with the note the taken branch pushes. -/
noncomputable def setupOffsetPair (fitData : RetulFitData)
    (newFrame : FrameGeometry) : ℝ × List Note :=
  let frameSTA := setupFrameSTA newFrame
  let effectiveSTA := fitData.fitPosition.effectiveSeatTubeAngle
  let staDifference := setupStaDifference fitData newFrame
  let setbackDifference := setupSetbackDifference fitData newFrame
  if 0.5 < |staDifference| then
    if 15 < setbackDifference then (25, [Note.staSteeper25 frameSTA effectiveSTA])
    else if 8 < setbackDifference then (20, [Note.staSteeper20 frameSTA effectiveSTA])
    else if setbackDifference < -15 then (0, [Note.staSlacker0 frameSTA effectiveSTA])
    else (0, [])
  else (0, [])

/-- The forward-saddle note of `calculateBikeSetup`, pushed when
`|saddleSetback| < 50`. -/
noncomputable def setupSaddleNotes (fitData : RetulFitData) : List Note :=
  if |fitData.fitPosition.saddleSetback| < 50 then [Note.forwardSaddle] else []

/-- `calculateBikeSetup` from the source: solver result plus saddle transfer,
seatpost extension, seatpost-offset recommendation, notes, and warnings.
The notes are the solver notes followed by the setup calculator notes
(offset note, then forward-saddle note), in push order. -/
noncomputable def calculateBikeSetup (fitData : RetulFitData)
    (newFrame : FrameGeometry) : BikeSetupCalculation :=
  let stem := calculateStemRequirements fitData.fitPosition newFrame {}
  { stem := stem
    saddleHeight := fitData.fitPosition.saddleHeight
    seatpostExtension := setupSeatpostExtension fitData newFrame
    saddleSetback := fitData.fitPosition.saddleSetback
    saddleAngle := jsOrNum fitData.fitPosition.saddleAngle 0
    effectiveSeatTubeAngle := fitData.fitPosition.effectiveSeatTubeAngle
    seatpostOffsetNeeded := (setupOffsetPair fitData newFrame).1
    originalFitBike :=
      fitData.originalBike.map (fun b => b.make ++ " " ++ b.model ++ " " ++ b.size)
    originalFitDate := fitData.fitDate
    notes := stem.notes ++ ((setupOffsetPair fitData newFrame).2 ++ setupSaddleNotes fitData)
    warnings := setupWarnings fitData newFrame }

/-- Follows the spec's words for the delta-consistency property: the achieved
stack delta recomputed from a returned solution's
`(spacerStack, stemLength, stemAngle)` via the spacer and stem trigonometric
contributions, minus the target. -/
noncomputable def recomputedStackDelta (fitPosition : FitPosition)
    (newFrame : FrameGeometry) (sol : StemCalculation) : ℝ :=
  let headTubeAngle := jsOrNum newFrame.headTubeAngle 73
  newFrame.stackMm + sol.spacerStack * Real.sin (degToRad headTubeAngle) +
      sol.stemLength * Real.sin (stemEffectiveAngle headTubeAngle sol.stemAngle) -
    fitPosition.handlebarStack

/-- Follows the spec's words for the delta-consistency property: the achieved
reach delta recomputed from a returned solution's
`(spacerStack, stemLength, stemAngle)`. -/
noncomputable def recomputedReachDelta (fitPosition : FitPosition)
    (newFrame : FrameGeometry) (sol : StemCalculation) : ℝ :=
  let headTubeAngle := jsOrNum newFrame.headTubeAngle 73
  newFrame.reachMm + sol.spacerStack * Real.cos (degToRad headTubeAngle) +
      sol.stemLength * Real.cos (stemEffectiveAngle headTubeAngle sol.stemAngle) -
    fitPosition.handlebarReach

/-- Follows the words of claim C3: the effective seat-tube angle selected as
`fit.fitPosition.effectiveSeatTubeAngle` when present (always, in this data
model), else `frame.seatTubeAngle`, else `73`. -/
noncomputable def specEffectiveSeatTubeAngle (fitData : RetulFitData) : ℝ :=
  fitData.fitPosition.effectiveSeatTubeAngle

/-- Follows the words of claim C3: the seatpost extension
`round(saddleHeight / sin(effectiveAngleRadians) - seatTubeLengthMm)` computed
with the claim's effective seat-tube angle. -/
noncomputable def specSeatpostExtension (fitData : RetulFitData)
    (seatTubeLengthMm : ℝ) : ℝ :=
  jsRound (fitData.fitPosition.saddleHeight /
      Real.sin (degToRad (specEffectiveSeatTubeAngle fitData)) - seatTubeLengthMm)

/-- Follows the words of claim C4: the seat-tube-angle difference
`effectiveSeatTubeAngle - (frame.seatTubeAngle ?? 73)` (nullish coalescing,
so a present `0` is used as `0`). -/
noncomputable def specStaDifference (fitData : RetulFitData)
    (newFrame : FrameGeometry) : ℝ :=
  fitData.fitPosition.effectiveSeatTubeAngle - (newFrame.seatTubeAngle.getD 73)

/-- Follows the words of claim C4: the setback difference
`staDifference * saddleHeight * tan(1°)`. -/
noncomputable def specSetbackDifference (fitData : RetulFitData)
    (newFrame : FrameGeometry) : ℝ :=
  specStaDifference fitData newFrame *
    (fitData.fitPosition.saddleHeight * Real.tan (degToRad 1))

/-- C2's scenario input: fit position targeting `handlebarStack = 530`,
`handlebarReach = 390`. -/
def c2Fit : FitPosition :=
  { saddleHeight := 750, saddleSetback := -70, saddleAngle := -2
    handlebarStack := 530, handlebarReach := 390, handlebarDrop := -40
    effectiveSeatTubeAngle := 73 }

/-- C2's scenario frame: `stackMm = 530`, `reachMm = 390`,
`headTubeAngle = 73`. -/
def c2Frame : FrameGeometry :=
  { stackMm := 530, reachMm := 390, headTubeAngle := 73 }

/-- Options for the head-tube-90° scenarios: spacer sweep disabled
(`maxSpacers = 0`), preferred angle `0`, stem-length window `[100.2, 140]`. -/
def scOpts : SolverOptions :=
  { maxStemLength := 140, minStemLength := 100.2, maxSpacers := 0
    preferredStemAngle := 0 }

/-- C6's counterexample fit position: required reach gain `100.3`, required
stack gain `0`. -/
def c6Fit : FitPosition :=
  { saddleHeight := 750, saddleSetback := -60, saddleAngle := 0
    handlebarStack := 500, handlebarReach := 600.3, handlebarDrop := -40
    effectiveSeatTubeAngle := 74 }

/-- A vertical-head-tube frame (`headTubeAngle = 90`) with stack/reach 500. -/
def c6Frame : FrameGeometry :=
  { stackMm := 500, reachMm := 500, headTubeAngle := 90 }

/-- C5's counterexample fit position: required reach gain `100.4`, required
stack gain `0`. -/
def c5Fit : FitPosition :=
  { saddleHeight := 750, saddleSetback := -60, saddleAngle := 0
    handlebarStack := 500, handlebarReach := 600.4, handlebarDrop := -40
    effectiveSeatTubeAngle := 74 }

/-- C3's counterexample frame: vertical seat tube (`seatTubeAngle = 90`),
`seatTubeLengthMm = 520`. -/
def c3Frame : FrameGeometry :=
  { stackMm := 530, reachMm := 390, headTubeAngle := 73
    seatTubeAngle := some 90, seatTubeLengthMm := some 520 }

/-- C3's counterexample fit data: `effectiveSeatTubeAngle = 76`,
`saddleHeight = 750`. -/
def c3FitData : RetulFitData :=
  { frameStack := 540, frameReach := 380
    fitPosition :=
      { saddleHeight := 750, saddleSetback := -70, saddleAngle := -2
        handlebarStack := 560, handlebarReach := 400, handlebarDrop := -40
        effectiveSeatTubeAngle := 76 } }

/-- C4's witness fit data (the claim's own instance):
`effectiveSeatTubeAngle = 76`, `saddleHeight = 750`. -/
def c4FitData : RetulFitData :=
  { frameStack := 540, frameReach := 380
    fitPosition :=
      { saddleHeight := 750, saddleSetback := -70, saddleAngle := -2
        handlebarStack := 560, handlebarReach := 400, handlebarDrop := -40
        effectiveSeatTubeAngle := 76 } }

/-- C4's witness frame: `seatTubeAngle = 73`. -/
def c4Frame : FrameGeometry :=
  { stackMm := 530, reachMm := 390, headTubeAngle := 73
    seatTubeAngle := some 73 }

/-- C4's counterexample fit data: `effectiveSeatTubeAngle = 10` (an extreme
value chosen to separate `?? 73` from `|| 73`). -/
def c4bFitData : RetulFitData :=
  { frameStack := 540, frameReach := 380
    fitPosition :=
      { saddleHeight := 750, saddleSetback := -70, saddleAngle := -2
        handlebarStack := 560, handlebarReach := 400, handlebarDrop := -40
        effectiveSeatTubeAngle := 10 } }

/-- C4's counterexample frame: `seatTubeAngle` present but `0`. -/
def c4bFrame : FrameGeometry :=
  { stackMm := 530, reachMm := 390, headTubeAngle := 73
    seatTubeAngle := some 0 }

/-- C7's counterexample frame: `seatTubeLengthMm` present but `0` (falsy). -/
def c7Frame : FrameGeometry :=
  { stackMm := 530, reachMm := 390, headTubeAngle := 73
    seatTubeAngle := some 90, seatTubeLengthMm := some 0 }

/-- C7's witness fit data: `saddleHeight = 750`. -/
def c7FitData : RetulFitData :=
  { frameStack := 540, frameReach := 380
    fitPosition :=
      { saddleHeight := 750, saddleSetback := -70, saddleAngle := -2
        handlebarStack := 560, handlebarReach := 400, handlebarDrop := -40
        effectiveSeatTubeAngle := 76 } }

/-- C1's witness options: `minStemLength > maxStemLength`, so no averaged
length can satisfy both bounds. -/
def c1Opts : SolverOptions :=
  { maxStemLength := 100, minStemLength := 200, maxSpacers := 50
    preferredStemAngle := -6 }

/-- C9's witness frame: `headTubeAngle = 0` (falsy at runtime). -/
def c9Frame : FrameGeometry :=
  { stackMm := 530, reachMm := 390, headTubeAngle := 0 }

/-- C10's witness fit data: `saddleSetback = -30`, within the forward-saddle
threshold. -/
def c10FitData : RetulFitData :=
  { frameStack := 540, frameReach := 380
    fitPosition :=
      { saddleHeight := 750, saddleSetback := -30, saddleAngle := -2
        handlebarStack := 560, handlebarReach := 400, handlebarDrop := -40
        effectiveSeatTubeAngle := 73.2 } }

/-- Shared fold shorthand: one step of the best-candidate accumulator over an
evaluation function `f`. -/
noncomputable def pickStep (f : ℝ × ℝ → Option Candidate)
    (best : Option Candidate) (p : ℝ × ℝ) : Option Candidate :=
  pickBetter best (f p)

theorem pickBetter_none_left (c : Option Candidate) : pickBetter none c = c := by
  cases c <;> rfl

theorem pickBetter_some_none (b : Candidate) : pickBetter (some b) none = some b := rfl

theorem pickBetter_some_some (b c : Candidate) :
    pickBetter (some b) (some c) = if c.error < b.error then some c else some b := rfl

theorem searchBest_eq_foldl (ctx : SearchCtx) :
    searchBest ctx =
      (gridPairs ctx.maxSpacers).foldl
        (pickStep (fun p => evalCandidate ctx p.1 p.2)) none := rfl

theorem foldl_pick_all_none (f : ℝ × ℝ → Option Candidate) :
    ∀ (l : List (ℝ × ℝ)), (∀ x ∈ l, f x = none) →
      l.foldl (pickStep f) none = none := by
  intro l
  induction l with
  | nil => intro _; rfl
  | cons x t ih =>
      intro h
      have hx : f x = none := h x (List.mem_cons_self x t)
      have hstep : pickStep f none x = none := by
        rw [pickStep, hx, pickBetter_none_left]
      rw [List.foldl_cons, hstep]
      exact ih (fun y hy => h y (List.mem_cons_of_mem x hy))

theorem foldl_pick_some_mem (f : ℝ × ℝ → Option Candidate) :
    ∀ (l : List (ℝ × ℝ)) (acc : Option Candidate) (c : Candidate),
      l.foldl (pickStep f) acc = some c →
      acc = some c ∨ ∃ x ∈ l, f x = some c := by
  intro l
  induction l with
  | nil => intro acc c h; exact Or.inl h
  | cons x t ih =>
      intro acc c h
      rw [List.foldl_cons] at h
      rcases ih (pickStep f acc x) c h with hacc | ⟨y, hy, hfy⟩
      · rw [pickStep] at hacc
        rcases hfx : f x with _ | d
        all_goals rw [hfx] at hacc
        · cases acc with
          | none => rw [pickBetter_none_left] at hacc; exact absurd hacc (by simp)
          | some b => rw [pickBetter_some_none] at hacc; exact Or.inl hacc
        · cases acc with
          | none =>
              rw [pickBetter_none_left] at hacc
              exact Or.inr ⟨x, List.mem_cons_self x t, by rw [hfx, hacc]⟩
          | some b =>
              rw [pickBetter_some_some] at hacc
              by_cases hlt : d.error < b.error
              · rw [if_pos hlt] at hacc
                exact Or.inr ⟨x, List.mem_cons_self x t, by rw [hfx, hacc]⟩
              · rw [if_neg hlt] at hacc
                exact Or.inl hacc
      · exact Or.inr ⟨y, List.mem_cons_of_mem x hy, hfy⟩

theorem foldl_pick_keep (f : ℝ × ℝ → Option Candidate) (cstar : Candidate) :
    ∀ (l : List (ℝ × ℝ)),
      (∀ x ∈ l, ∀ c, f x = some c → c = cstar ∨ cstar.error < c.error) →
      l.foldl (pickStep f) (some cstar) = some cstar := by
  intro l
  induction l with
  | nil => intro _; rfl
  | cons x t ih =>
      intro h
      have hstep : pickStep f (some cstar) x = some cstar := by
        rw [pickStep]
        rcases hfx : f x with _ | d
        · rw [pickBetter_some_none]
        · rw [pickBetter_some_some]
          rcases h x (List.mem_cons_self x t) d hfx with rfl | hgt
          · rw [if_neg (lt_irrefl d.error)]
          · rw [if_neg (not_lt.mpr (le_of_lt hgt))]
      rw [List.foldl_cons, hstep]
      exact ih (fun y hy => h y (List.mem_cons_of_mem x hy))

theorem foldl_pick_min (f : ℝ × ℝ → Option Candidate) (cstar : Candidate) :
    ∀ (l : List (ℝ × ℝ)) (acc : Option Candidate),
      (acc = none ∨ ∃ b, acc = some b ∧ cstar.error < b.error) →
      (∃ x ∈ l, f x = some cstar) →
      (∀ x ∈ l, ∀ c, f x = some c → c = cstar ∨ cstar.error < c.error) →
      l.foldl (pickStep f) acc = some cstar := by
  intro l
  induction l with
  | nil => intro acc _ hmem _; exact absurd hmem (by simp)
  | cons x t ih =>
      intro acc hacc hmem hdom
      by_cases hfx : f x = some cstar
      · have hstep : pickStep f acc x = some cstar := by
          rw [pickStep, hfx]
          rcases hacc with rfl | ⟨b, rfl, hb⟩
          · rw [pickBetter_none_left]
          · rw [pickBetter_some_some, if_pos hb]
        rw [List.foldl_cons, hstep]
        exact foldl_pick_keep f cstar t (fun y hy => hdom y (List.mem_cons_of_mem x hy))
      · have hmem' : ∃ y ∈ t, f y = some cstar := by
          rcases hmem with ⟨y, hy, hfy⟩
          rcases List.mem_cons.mp hy with rfl | hyt
          · exact absurd hfy hfx
          · exact ⟨y, hyt, hfy⟩
        have hacc' : pickStep f acc x = none ∨
            ∃ b, pickStep f acc x = some b ∧ cstar.error < b.error := by
          rw [pickStep]
          rcases hfd : f x with _ | d
          · rcases hacc with rfl | ⟨b, rfl, hb⟩
            · exact Or.inl (pickBetter_none_left none)
            · exact Or.inr ⟨b, pickBetter_some_none b, hb⟩
          · have hd : cstar.error < d.error := by
              rcases hdom x (List.mem_cons_self x t) d hfd with rfl | h
              · exact absurd hfd hfx
              · exact h
            rcases hacc with rfl | ⟨b, rfl, hb⟩
            · exact Or.inr ⟨d, pickBetter_none_left (some d), hd⟩
            · rw [pickBetter_some_some]
              by_cases hlt : d.error < b.error
              · rw [if_pos hlt]; exact Or.inr ⟨d, rfl, hd⟩
              · rw [if_neg hlt]; exact Or.inr ⟨b, rfl, hb⟩
        rw [List.foldl_cons]
        exact ih (pickStep f acc x) hacc' hmem'
          (fun y hy => hdom y (List.mem_cons_of_mem x hy))

theorem jsRound_le (x : ℝ) : jsRound x ≤ x + 1/2 := by
  unfold jsRound
  exact Int.floor_le (x + 1/2)

theorem lt_jsRound_add_one (x : ℝ) : x - 1/2 < jsRound x := by
  have h := Int.lt_floor_add_one (x + 1/2)
  unfold jsRound
  linarith

theorem abs_jsRound_sub_le (x : ℝ) : |jsRound x - x| ≤ 1/2 := by
  rw [abs_le]
  constructor
  · linarith [lt_jsRound_add_one x]
  · linarith [jsRound_le x]

theorem le_jsRound (n : ℤ) (x : ℝ) (h : (n : ℝ) ≤ x) : (n : ℝ) ≤ jsRound x := by
  unfold jsRound
  have : n ≤ ⌊x + 1/2⌋ := Int.le_floor.mpr (by linarith)
  exact_mod_cast this

theorem spacerGrid_mem {m x : ℝ} (h : x ∈ spacerGrid m) :
    ∃ i : ℕ, x = 5 * (i : ℝ) ∧ 0 ≤ x ∧ x ≤ m := by
  unfold spacerGrid at h
  by_cases hm : 0 ≤ m
  · rw [if_pos hm] at h
    rcases List.mem_map.mp h with ⟨i, hi, rfl⟩
    have hi2 : i < ⌊m / 5⌋₊ + 1 := List.mem_range.mp hi
    have hle : i ≤ ⌊m / 5⌋₊ := Nat.lt_succ_iff.mp hi2
    have hfl : ((⌊m / 5⌋₊ : ℕ) : ℝ) ≤ m / 5 := Nat.floor_le (by positivity)
    have h5 : (i : ℝ) ≤ m / 5 := le_trans (by exact_mod_cast hle) hfl
    exact ⟨i, rfl, by positivity, by linarith⟩
  · rw [if_neg hm] at h
    exact absurd h (List.not_mem_nil _)

theorem spacerGrid_zero : spacerGrid 0 = [0] := by
  unfold spacerGrid
  rw [if_pos le_rfl]
  have h1 : ⌊(0 : ℝ) / 5⌋₊ + 1 = 1 := by norm_num
  rw [h1]
  simp [List.range_succ]

theorem angleGrid_mem {a : ℝ} (h : a ∈ angleGrid) :
    ∃ i : ℕ, i < 35 ∧ a = (i : ℝ) - 17 := by
  unfold angleGrid at h
  rcases List.mem_map.mp h with ⟨i, hi, hia⟩
  exact ⟨i, List.mem_range.mp hi, hia.symm⟩

theorem angleGrid_bounds {a : ℝ} (h : a ∈ angleGrid) : -17 ≤ a ∧ a ≤ 17 := by
  rcases angleGrid_mem h with ⟨i, hi, rfl⟩
  have h1 : (i : ℝ) ≤ 34 := by exact_mod_cast Nat.lt_succ_iff.mp hi
  have h2 : (0 : ℝ) ≤ (i : ℝ) := Nat.cast_nonneg i
  constructor <;> linarith

theorem angleGrid_abs_one {a : ℝ} (h : a ∈ angleGrid) (hne : a ≠ 0) : 1 ≤ |a| := by
  rcases angleGrid_mem h with ⟨i, _, rfl⟩
  have hz : (i : ℤ) - 17 ≠ 0 := by
    intro hzero
    apply hne
    have : (i : ℤ) = 17 := by omega
    have hr : (i : ℝ) = 17 := by exact_mod_cast this
    rw [hr]
    norm_num
  have habs : (1 : ℤ) ≤ |(i : ℤ) - 17| := Int.one_le_abs hz
  have hcast : ((|(i : ℤ) - 17| : ℤ) : ℝ) = |(i : ℝ) - 17| := by
    push_cast
    rfl
  calc (1 : ℝ) ≤ ((|(i : ℤ) - 17| : ℤ) : ℝ) := by exact_mod_cast habs
    _ = |(i : ℝ) - 17| := hcast

theorem zero_mem_angleGrid : (0 : ℝ) ∈ angleGrid := by
  unfold angleGrid
  have h17 : (17 : ℕ) ∈ List.range 35 := List.mem_range.mpr (by norm_num)
  refine List.mem_map.mpr ⟨17, h17, by norm_num⟩

theorem gridPairs_mem {m : ℝ} {p : ℝ × ℝ} :
    p ∈ gridPairs m ↔ p.1 ∈ spacerGrid m ∧ p.2 ∈ angleGrid := by
  unfold gridPairs
  constructor
  · intro h
    rcases List.mem_flatMap.mp h with ⟨s, hs, hp⟩
    rcases List.mem_map.mp hp with ⟨a, ha, hpa⟩
    rw [← hpa]
    exact ⟨hs, ha⟩
  · intro ⟨h1, h2⟩
    exact List.mem_flatMap.mpr ⟨p.1, h1, List.mem_map.mpr ⟨p.2, h2, rfl⟩⟩

theorem evalCandidate_some_spec {ctx : SearchCtx} {s a : ℝ} {c : Candidate}
    (h : evalCandidate ctx s a = some c) :
    c.spacers = s ∧ c.stemAngle = a ∧
    c.stemLength = jsRound (averagedStemLength ctx s a) ∧
    ctx.minStemLength ≤ averagedStemLength ctx s a ∧
    averagedStemLength ctx s a ≤ ctx.maxStemLength ∧
    c.error =
      (|s * Real.cos (degToRad ctx.headTubeAngle) +
          averagedStemLength ctx s a *
            Real.cos (stemEffectiveAngle ctx.headTubeAngle a) -
          ctx.requiredReachGain| +
        |s * Real.sin (degToRad ctx.headTubeAngle) +
          averagedStemLength ctx s a *
            Real.sin (stemEffectiveAngle ctx.headTubeAngle a) -
          ctx.requiredStackGain|) +
      |a - ctx.preferredStemAngle| * 0.5 := by
  unfold evalCandidate at h
  by_cases h1 : |Real.cos (stemEffectiveAngle ctx.headTubeAngle a)| < 0.1
  · rw [if_pos h1] at h
    exact absurd h (by simp)
  · rw [if_neg h1] at h
    by_cases h2 : ctx.minStemLength ≤ averagedStemLength ctx s a ∧
        averagedStemLength ctx s a ≤ ctx.maxStemLength
    · rw [if_pos h2] at h
      have hc := Option.some.inj h
      rw [← hc]
      exact ⟨rfl, rfl, rfl, h2.1, h2.2, rfl⟩
    · rw [if_neg h2] at h
      exact absurd h (by simp)

theorem evalCandidate_error_nonneg {ctx : SearchCtx} {s a : ℝ} {c : Candidate}
    (h : evalCandidate ctx s a = some c) :
    |a - ctx.preferredStemAngle| * 0.5 ≤ c.error := by
  rcases evalCandidate_some_spec h with ⟨-, -, -, -, -, herr⟩
  rw [herr]
  have h1 : 0 ≤ |s * Real.cos (degToRad ctx.headTubeAngle) +
      averagedStemLength ctx s a * Real.cos (stemEffectiveAngle ctx.headTubeAngle a) -
      ctx.requiredReachGain| := abs_nonneg _
  have h2 : 0 ≤ |s * Real.sin (degToRad ctx.headTubeAngle) +
      averagedStemLength ctx s a * Real.sin (stemEffectiveAngle ctx.headTubeAngle a) -
      ctx.requiredStackGain| := abs_nonneg _
  linarith

theorem evalCandidate_zero_gains {ctx : SearchCtx}
    (hstack : ctx.requiredStackGain = 0) (hreach : ctx.requiredReachGain = 0)
    (hmin : 0 < ctx.minStemLength) (a : ℝ) :
    evalCandidate ctx 0 a = none := by
  have havg : averagedStemLength ctx 0 a = 0 := by
    unfold averagedStemLength
    rw [hstack, hreach]
    simp
  unfold evalCandidate
  by_cases h1 : |Real.cos (stemEffectiveAngle ctx.headTubeAngle a)| < 0.1
  · rw [if_pos h1]
  · rw [if_neg h1, if_neg]
    rw [havg]
    intro ⟨hle, _⟩
    linarith

theorem searchBest_none_of_invalid {ctx : SearchCtx}
    (h : ∀ s ∈ spacerGrid ctx.maxSpacers, ∀ a ∈ angleGrid,
      0.1 ≤ |Real.cos (stemEffectiveAngle ctx.headTubeAngle a)| →
      ¬(ctx.minStemLength ≤ averagedStemLength ctx s a ∧
        averagedStemLength ctx s a ≤ ctx.maxStemLength)) :
    searchBest ctx = none := by
  rw [searchBest_eq_foldl]
  apply foldl_pick_all_none
  intro p hp
  rcases gridPairs_mem.mp hp with ⟨hs, ha⟩
  unfold evalCandidate
  by_cases h1 : |Real.cos (stemEffectiveAngle ctx.headTubeAngle p.2)| < 0.1
  · rw [if_pos h1]
  · rw [if_neg h1, if_neg (h p.1 hs p.2 ha (not_lt.mp h1))]

theorem searchBest_some_spec {ctx : SearchCtx} {c : Candidate}
    (h : searchBest ctx = some c) :
    ∃ p ∈ gridPairs ctx.maxSpacers, evalCandidate ctx p.1 p.2 = some c := by
  rw [searchBest_eq_foldl] at h
  rcases foldl_pick_some_mem _ _ none c h with h1 | h1
  · exact absurd h1 (by simp)
  · exact h1

theorem searchBest_eq_of_min {ctx : SearchCtx} {pstar : ℝ × ℝ} {cstar : Candidate}
    (hp : pstar ∈ gridPairs ctx.maxSpacers)
    (he : evalCandidate ctx pstar.1 pstar.2 = some cstar)
    (hdom : ∀ p ∈ gridPairs ctx.maxSpacers, ∀ c,
      evalCandidate ctx p.1 p.2 = some c → c = cstar ∨ cstar.error < c.error) :
    searchBest ctx = some cstar := by
  rw [searchBest_eq_foldl]
  exact foldl_pick_min _ cstar _ none (Or.inl rfl) ⟨pstar, hp, he⟩ hdom

theorem calculateStemRequirements_of_none {fitPosition : FitPosition}
    {newFrame : FrameGeometry} {options : SolverOptions}
    (h : searchBest (mkCtx fitPosition newFrame options) = none) :
    calculateStemRequirements fitPosition newFrame options =
      fallbackResult fitPosition newFrame options := by
  unfold calculateStemRequirements
  rw [h]

theorem calculateStemRequirements_of_some {fitPosition : FitPosition}
    {newFrame : FrameGeometry} {options : SolverOptions} {best : Candidate}
    (h : searchBest (mkCtx fitPosition newFrame options) = some best) :
    calculateStemRequirements fitPosition newFrame options =
      mainResult fitPosition newFrame options best := by
  unfold calculateStemRequirements
  rw [h]

theorem jsOrNum_of_ne {x : ℝ} (d : ℝ) (h : x ≠ 0) : jsOrNum x d = x := if_neg h

theorem jsOrNum_zero (d : ℝ) : jsOrNum 0 d = d := if_pos rfl

theorem stemEffectiveAngle_90_zero : stemEffectiveAngle 90 0 = 0 := by
  unfold stemEffectiveAngle degToRad
  norm_num

theorem averaged_scenario {ctx : SearchCtx} (h90 : ctx.headTubeAngle = 90)
    (hS : ctx.requiredStackGain = 0) :
    averagedStemLength ctx 0 0 = ctx.requiredReachGain := by
  unfold averagedStemLength
  rw [h90, stemEffectiveAngle_90_zero, hS]
  simp [Real.sin_zero, Real.cos_zero]
  rw [if_neg (by norm_num : ¬((0.1 : ℝ) < 0))]
  ring

theorem eval_scenario_center {ctx : SearchCtx} (h90 : ctx.headTubeAngle = 90)
    (hS : ctx.requiredStackGain = 0)
    (hmin : ctx.minStemLength ≤ ctx.requiredReachGain)
    (hmax : ctx.requiredReachGain ≤ ctx.maxStemLength)
    (hpref : ctx.preferredStemAngle = 0) :
    evalCandidate ctx 0 0 =
      some { spacers := 0, stemLength := jsRound ctx.requiredReachGain,
             stemAngle := 0, error := 0 } := by
  have havg := averaged_scenario h90 hS
  unfold evalCandidate
  rw [h90, stemEffectiveAngle_90_zero, hS, hpref, havg]
  simp only [Real.sin_zero, Real.cos_zero, abs_one, mul_one, mul_zero, zero_mul,
    add_zero, zero_add, sub_zero, sub_self, abs_zero, zero_sub, abs_neg]
  rw [if_neg (by norm_num : ¬((1 : ℝ) < 0.1))]
  rw [if_pos ⟨hmin, hmax⟩]

theorem scenario_search {fit : FitPosition} {frame : FrameGeometry}
    {opts : SolverOptions} (h90 : frame.headTubeAngle = 90)
    (hms : opts.maxSpacers = 0) (hpref : opts.preferredStemAngle = 0)
    (hS : fit.handlebarStack = frame.stackMm)
    (hmin : opts.minStemLength ≤ fit.handlebarReach - frame.reachMm)
    (hmax : fit.handlebarReach - frame.reachMm ≤ opts.maxStemLength) :
    searchBest (mkCtx fit frame opts) =
      some { spacers := 0,
             stemLength := jsRound (fit.handlebarReach - frame.reachMm),
             stemAngle := 0, error := 0 } := by
  set ctx := mkCtx fit frame opts with hctx
  have hcH : ctx.headTubeAngle = 90 := by
    rw [hctx]
    unfold mkCtx
    rw [h90]
    exact jsOrNum_of_ne 73 (by norm_num)
  have hcS : ctx.requiredStackGain = 0 := by
    rw [hctx]
    unfold mkCtx
    rw [hS]
    ring
  have hcR : ctx.requiredReachGain = fit.handlebarReach - frame.reachMm := rfl
  have hcMin : ctx.minStemLength ≤ ctx.requiredReachGain := by rw [hcR]; exact hmin
  have hcMax : ctx.requiredReachGain ≤ ctx.maxStemLength := by rw [hcR]; exact hmax
  have hcPref : ctx.preferredStemAngle = 0 := hpref
  have hcM : ctx.maxSpacers = 0 := hms
  have hcenter := eval_scenario_center hcH hcS hcMin hcMax hcPref
  rw [hcR] at hcenter
  have hmem : ((0 : ℝ), (0 : ℝ)) ∈ gridPairs ctx.maxSpacers := by
    rw [hcM]
    refine gridPairs_mem.mpr ⟨?_, zero_mem_angleGrid⟩
    rw [spacerGrid_zero]
    exact List.mem_singleton.mpr rfl
  apply searchBest_eq_of_min hmem hcenter
  intro p hp c hc
  rcases gridPairs_mem.mp hp with ⟨hp1, hp2⟩
  rw [hcM, spacerGrid_zero] at hp1
  have hp1z : p.1 = 0 := List.mem_singleton.mp hp1
  by_cases hz : p.2 = 0
  · left
    have heq : evalCandidate ctx p.1 p.2 =
        some { spacers := 0, stemLength := jsRound (fit.handlebarReach - frame.reachMm),
               stemAngle := 0, error := 0 } := by
      rw [hp1z, hz]
      exact hcenter
    rw [heq] at hc
    exact (Option.some.inj hc).symm
  · right
    have habs : 1 ≤ |p.2| := angleGrid_abs_one hp2 hz
    have herr := evalCandidate_error_nonneg hc
    rw [hcPref, sub_zero] at herr
    show (0 : ℝ) < c.error
    linarith

theorem nearestCommonStemLength_100 : nearestCommonStemLength 100 = 100 := by
  unfold nearestCommonStemLength
  simp only [List.foldl]
  norm_num

theorem c6_search : searchBest (mkCtx c6Fit c6Frame scOpts) =
    some { spacers := 0, stemLength := 100, stemAngle := 0, error := 0 } := by
  have hround : jsRound (c6Fit.handlebarReach - c6Frame.reachMm) = 100 := by
    show jsRound ((600.3 : ℝ) - 500) = 100
    unfold jsRound
    norm_num
  have hsearch := @scenario_search c6Fit c6Frame scOpts rfl rfl rfl rfl
    (by norm_num [c6Fit, c6Frame, scOpts]) (by norm_num [c6Fit, c6Frame, scOpts])
  rw [hround] at hsearch
  exact hsearch

theorem c6_result : calculateStemRequirements c6Fit c6Frame scOpts =
    { stemLength := 100, stemAngle := 0, spacerStack := 0,
      stackDelta := 0, reachDelta := 0, isAchievable := true, notes := [] } := by
  rw [calculateStemRequirements_of_some c6_search]
  unfold mainResult mkCtx
  simp only [c6Fit, c6Frame, scOpts]
  have hj : jsOrNum (90 : ℝ) 73 = 90 := jsOrNum_of_ne 73 (by norm_num)
  simp only [hj, stemEffectiveAngle_90_zero, Real.sin_zero, Real.cos_zero,
    nearestCommonStemLength_100, StemCalculation.mk.injEq]
  norm_num [jsRound, abs_of_nonneg]

theorem c5_search : searchBest (mkCtx c5Fit c6Frame scOpts) =
    some { spacers := 0, stemLength := 100, stemAngle := 0, error := 0 } := by
  have hround : jsRound (c5Fit.handlebarReach - c6Frame.reachMm) = 100 := by
    show jsRound ((600.4 : ℝ) - 500) = 100
    unfold jsRound
    norm_num
  have hsearch := @scenario_search c5Fit c6Frame scOpts rfl rfl rfl rfl
    (by norm_num [c5Fit, c6Frame, scOpts]) (by norm_num [c5Fit, c6Frame, scOpts])
  rw [hround] at hsearch
  exact hsearch

theorem c5_result : calculateStemRequirements c5Fit c6Frame scOpts =
    { stemLength := 100, stemAngle := 0, spacerStack := 0,
      stackDelta := 0, reachDelta := 0, isAchievable := true, notes := [] } := by
  rw [calculateStemRequirements_of_some c5_search]
  unfold mainResult mkCtx
  simp only [c5Fit, c6Frame, scOpts]
  have hj : jsOrNum (90 : ℝ) 73 = 90 := jsOrNum_of_ne 73 (by norm_num)
  simp only [hj, stemEffectiveAngle_90_zero, Real.sin_zero, Real.cos_zero,
    nearestCommonStemLength_100, StemCalculation.mk.injEq]
  norm_num [jsRound, abs_of_nonneg]

theorem mainResult_stemLength (fit : FitPosition) (frame : FrameGeometry)
    (opts : SolverOptions) (b : Candidate) :
    (mainResult fit frame opts b).stemLength = b.stemLength := rfl

theorem mainResult_stemAngle (fit : FitPosition) (frame : FrameGeometry)
    (opts : SolverOptions) (b : Candidate) :
    (mainResult fit frame opts b).stemAngle = b.stemAngle := rfl

theorem mainResult_spacerStack (fit : FitPosition) (frame : FrameGeometry)
    (opts : SolverOptions) (b : Candidate) :
    (mainResult fit frame opts b).spacerStack = b.spacers := rfl

theorem mainResult_stackDelta (fit : FitPosition) (frame : FrameGeometry)
    (opts : SolverOptions) (b : Candidate) :
    (mainResult fit frame opts b).stackDelta =
      jsRound (recomputedStackDelta fit frame (mainResult fit frame opts b)) := rfl

theorem mainResult_reachDelta (fit : FitPosition) (frame : FrameGeometry)
    (opts : SolverOptions) (b : Candidate) :
    (mainResult fit frame opts b).reachDelta =
      jsRound (recomputedReachDelta fit frame (mainResult fit frame opts b)) := rfl

theorem mainResult_isAchievable (fit : FitPosition) (frame : FrameGeometry)
    (opts : SolverOptions) (b : Candidate) :
    (mainResult fit frame opts b).isAchievable =
      if |recomputedStackDelta fit frame (mainResult fit frame opts b)| ≤ 10 ∧
          |recomputedReachDelta fit frame (mainResult fit frame opts b)| ≤ 10
      then true else false := rfl

theorem fallbackResult_isAchievable (fit : FitPosition) (frame : FrameGeometry)
    (opts : SolverOptions) :
    (fallbackResult fit frame opts).isAchievable = false := rfl

theorem fallbackResult_spacerStack (fit : FitPosition) (frame : FrameGeometry)
    (opts : SolverOptions) :
    (fallbackResult fit frame opts).spacerStack = opts.maxSpacers := rfl

theorem fallbackResult_notes (fit : FitPosition) (frame : FrameGeometry)
    (opts : SolverOptions) :
    (fallbackResult fit frame opts).notes = [Note.exactFitNotAchievable] := rfl

theorem cos_lb_of_abs_le {x : ℝ} (hx : |x| ≤ 0.5935) : 0.8 ≤ Real.cos x := by
  have h1 : |x| ≤ 1 := le_trans hx (by norm_num)
  have h2 := Real.cos_bound h1
  rw [abs_le] at h2
  have hsq : x ^ 2 ≤ 0.5935 ^ 2 := by
    rw [← sq_abs]
    exact pow_le_pow_left₀ (abs_nonneg x) hx 2
  have hq : |x| ^ 4 ≤ 0.5935 ^ 4 := pow_le_pow_left₀ (abs_nonneg x) hx 4
  nlinarith [h2.1, h2.2]

theorem abs_stemEffectiveAngle_73 {a : ℝ} (h1 : -17 ≤ a) (h2 : a ≤ 17) :
    |stemEffectiveAngle 73 a| ≤ 0.5935 := by
  unfold stemEffectiveAngle degToRad
  have hpi : Real.pi < 3.1416 := Real.pi_lt_d4
  have hpi0 : 0 < Real.pi := Real.pi_pos
  have habs : |73 - 90 + a| ≤ 34 := by
    rw [abs_le]
    constructor <;> linarith
  rw [abs_div, abs_mul]
  rw [abs_of_pos hpi0, abs_of_pos (by norm_num : (0 : ℝ) < 180)]
  rw [div_le_iff₀ (by norm_num : (0 : ℝ) < 180)]
  have key : |73 - 90 + a| * Real.pi ≤ 34 * 3.1416 :=
    mul_le_mul habs (le_of_lt hpi) (le_of_lt hpi0) (by norm_num)
  linarith

theorem cos_degToRad_73_pos : 0 < Real.cos (degToRad 73) := by
  apply Real.cos_pos_of_mem_Ioo
  unfold degToRad
  constructor
  · have := Real.pi_pos
    nlinarith
  · have := Real.pi_pos
    nlinarith

theorem c2_ctx_stack : (mkCtx c2Fit c2Frame ({} : SolverOptions)).requiredStackGain = 0 := by
  show (530 : ℝ) - 530 = 0
  norm_num

theorem c2_ctx_reach : (mkCtx c2Fit c2Frame ({} : SolverOptions)).requiredReachGain = 0 := by
  show (390 : ℝ) - 390 = 0
  norm_num

theorem c2_ctx_hta : (mkCtx c2Fit c2Frame ({} : SolverOptions)).headTubeAngle = 73 :=
  jsOrNum_of_ne 73 (by norm_num [c2Frame])

theorem c2_eval_zero (a : ℝ) :
    evalCandidate (mkCtx c2Fit c2Frame ({} : SolverOptions)) 0 a = none :=
  evalCandidate_zero_gains c2_ctx_stack c2_ctx_reach (by norm_num : (0 : ℝ) < 60) a

theorem c2_spacer_ne :
    (calculateStemRequirements c2Fit c2Frame {}).spacerStack ≠ 0 := by
  rcases hsb : searchBest (mkCtx c2Fit c2Frame ({} : SolverOptions)) with _ | b
  · rw [calculateStemRequirements_of_none hsb, fallbackResult_spacerStack]
    show (50 : ℝ) ≠ 0
    norm_num
  · rw [calculateStemRequirements_of_some hsb, mainResult_spacerStack]
    rcases searchBest_some_spec hsb with ⟨p, hp, heval⟩
    have hbs : b.spacers = p.1 := (evalCandidate_some_spec heval).1
    rw [hbs]
    intro hzero
    rw [hzero] at heval
    rw [c2_eval_zero p.2] at heval
    exact Option.noConfusion heval

theorem c2_not_achievable :
    (calculateStemRequirements c2Fit c2Frame {}).isAchievable = false := by
  rcases hsb : searchBest (mkCtx c2Fit c2Frame ({} : SolverOptions)) with _ | b
  · rw [calculateStemRequirements_of_none hsb, fallbackResult_isAchievable]
  · rw [calculateStemRequirements_of_some hsb, mainResult_isAchievable]
    rcases searchBest_some_spec hsb with ⟨p, hp, heval⟩
    rcases evalCandidate_some_spec heval with ⟨hbs, hba, hbl, hmin, _, -⟩
    rcases gridPairs_mem.mp hp with ⟨hp1, hp2⟩
    obtain ⟨i, -, hs0, -⟩ := spacerGrid_mem hp1
    have hang := angleGrid_bounds hp2
    have hmin60 : (60 : ℝ) ≤ averagedStemLength
        (mkCtx c2Fit c2Frame ({} : SolverOptions)) p.1 p.2 := hmin
    have hL : (60 : ℝ) ≤ b.stemLength := by
      rw [hbl]
      exact le_jsRound 60 _ hmin60
    have hcosEff : (0.8 : ℝ) ≤
        Real.cos (stemEffectiveAngle (jsOrNum c2Frame.headTubeAngle 73) b.stemAngle) := by
      have h73 : jsOrNum c2Frame.headTubeAngle 73 = 73 := c2_ctx_hta
      rw [h73, hba]
      exact cos_lb_of_abs_le (abs_stemEffectiveAngle_73 hang.1 hang.2)
    have hcos73 : 0 < Real.cos (degToRad (jsOrNum c2Frame.headTubeAngle 73)) := by
      have h73 : jsOrNum c2Frame.headTubeAngle 73 = 73 := c2_ctx_hta
      rw [h73]
      exact cos_degToRad_73_pos
    have hreach : (48 : ℝ) ≤ recomputedReachDelta c2Fit c2Frame
        (mainResult c2Fit c2Frame {} b) := by
      unfold recomputedReachDelta
      simp only [mainResult_spacerStack, mainResult_stemLength, mainResult_stemAngle]
      have e1 : (0 : ℝ) ≤ b.spacers *
          Real.cos (degToRad (jsOrNum c2Frame.headTubeAngle 73)) := by
        rw [hbs]
        exact mul_nonneg hs0 (le_of_lt hcos73)
      have e2 : (48 : ℝ) ≤ b.stemLength *
          Real.cos (stemEffectiveAngle (jsOrNum c2Frame.headTubeAngle 73) b.stemAngle) := by
        calc (48 : ℝ) = 60 * 0.8 := by norm_num
          _ ≤ b.stemLength *
              Real.cos (stemEffectiveAngle (jsOrNum c2Frame.headTubeAngle 73) b.stemAngle) :=
            mul_le_mul hL hcosEff (by norm_num) (by linarith)
      have e3 : c2Frame.reachMm = 390 := rfl
      have e4 : c2Fit.handlebarReach = 390 := rfl
      rw [e3, e4]
      linarith
    rw [if_neg]
    rintro ⟨-, habs10⟩
    have := le_abs_self (recomputedReachDelta c2Fit c2Frame (mainResult c2Fit c2Frame {} b))
    linarith

theorem calculateBikeSetup_effSTA (d : RetulFitData) (f : FrameGeometry) :
    (calculateBikeSetup d f).effectiveSeatTubeAngle =
      d.fitPosition.effectiveSeatTubeAngle := rfl

theorem calculateBikeSetup_ext (d : RetulFitData) (f : FrameGeometry) :
    (calculateBikeSetup d f).seatpostExtension = setupSeatpostExtension d f := rfl

theorem calculateBikeSetup_warns (d : RetulFitData) (f : FrameGeometry) :
    (calculateBikeSetup d f).warnings = setupWarnings d f := rfl

theorem calculateBikeSetup_offset (d : RetulFitData) (f : FrameGeometry) :
    (calculateBikeSetup d f).seatpostOffsetNeeded = (setupOffsetPair d f).1 := rfl

theorem calculateBikeSetup_notes (d : RetulFitData) (f : FrameGeometry) :
    (calculateBikeSetup d f).notes =
      (calculateStemRequirements d.fitPosition f {}).notes ++
        ((setupOffsetPair d f).2 ++ setupSaddleNotes d) := rfl

theorem setupSeatpostExtension_some (d : RetulFitData) (f : FrameGeometry)
    (stl : ℝ) (h : f.seatTubeLengthMm = some stl) (hne : stl ≠ 0) :
    setupSeatpostExtension d f =
      some (jsRound (d.fitPosition.saddleHeight /
        Real.sin (degToRad (jsOrOpt f.seatTubeAngle
          (jsOrNum d.fitPosition.effectiveSeatTubeAngle 73))) - stl)) := by
  unfold setupSeatpostExtension
  simp only [h]
  rw [if_neg hne]

theorem setupSeatpostExtension_absent (d : RetulFitData) (f : FrameGeometry)
    (h : f.seatTubeLengthMm = none) : setupSeatpostExtension d f = none := by
  unfold setupSeatpostExtension
  simp only [h]

theorem setupSeatpostExtension_zero (d : RetulFitData) (f : FrameGeometry)
    (h : f.seatTubeLengthMm = some 0) : setupSeatpostExtension d f = none := by
  unfold setupSeatpostExtension
  simp only [h]
  simp

theorem setupWarnings_of_some (d : RetulFitData) (f : FrameGeometry) (e : ℝ)
    (h : setupSeatpostExtension d f = some e) :
    setupWarnings d f =
      (if e < 50 then [Note.lowSeatpostExtension e] else []) ++
      (if 200 < e then [Note.highSeatpostExtension e] else []) := by
  unfold setupWarnings
  simp only [h]

theorem setupWarnings_of_none (d : RetulFitData) (f : FrameGeometry)
    (h : setupSeatpostExtension d f = none) : setupWarnings d f = [] := by
  unfold setupWarnings
  simp only [h]

theorem setupOffsetPair_25 (d : RetulFitData) (f : FrameGeometry)
    (h1 : 0.5 < |setupStaDifference d f|)
    (h2 : 15 < setupSetbackDifference d f) :
    setupOffsetPair d f =
      (25, [Note.staSteeper25 (setupFrameSTA f) d.fitPosition.effectiveSeatTubeAngle]) := by
  unfold setupOffsetPair
  rw [if_pos h1, if_pos h2]

theorem setupOffsetPair_20 (d : RetulFitData) (f : FrameGeometry)
    (h1 : 0.5 < |setupStaDifference d f|)
    (h2 : ¬15 < setupSetbackDifference d f)
    (h3 : 8 < setupSetbackDifference d f) :
    setupOffsetPair d f =
      (20, [Note.staSteeper20 (setupFrameSTA f) d.fitPosition.effectiveSeatTubeAngle]) := by
  unfold setupOffsetPair
  rw [if_pos h1, if_neg h2, if_pos h3]

theorem setupOffsetPair_slacker (d : RetulFitData) (f : FrameGeometry)
    (h1 : 0.5 < |setupStaDifference d f|)
    (h2 : ¬15 < setupSetbackDifference d f)
    (h3 : ¬8 < setupSetbackDifference d f)
    (h4 : setupSetbackDifference d f < -15) :
    setupOffsetPair d f =
      (0, [Note.staSlacker0 (setupFrameSTA f) d.fitPosition.effectiveSeatTubeAngle]) := by
  unfold setupOffsetPair
  rw [if_pos h1, if_neg h2, if_neg h3, if_pos h4]

theorem setupOffsetPair_mid (d : RetulFitData) (f : FrameGeometry)
    (h1 : 0.5 < |setupStaDifference d f|)
    (h2 : ¬15 < setupSetbackDifference d f)
    (h3 : ¬8 < setupSetbackDifference d f)
    (h4 : ¬setupSetbackDifference d f < -15) :
    setupOffsetPair d f = (0, []) := by
  unfold setupOffsetPair
  rw [if_pos h1, if_neg h2, if_neg h3, if_neg h4]

theorem setupOffsetPair_small (d : RetulFitData) (f : FrameGeometry)
    (h1 : ¬0.5 < |setupStaDifference d f|) :
    setupOffsetPair d f = (0, []) := by
  unfold setupOffsetPair
  rw [if_neg h1]

theorem setupSaddleNotes_fwd (d : RetulFitData)
    (h : |d.fitPosition.saddleSetback| < 50) :
    setupSaddleNotes d = [Note.forwardSaddle] := if_pos h

theorem setupSaddleNotes_far (d : RetulFitData)
    (h : ¬|d.fitPosition.saddleSetback| < 50) :
    setupSaddleNotes d = [] := if_neg h

theorem mainResult_notes (fit : FitPosition) (frame : FrameGeometry)
    (opts : SolverOptions) (b : Candidate) :
    (mainResult fit frame opts b).notes =
      (if 5 < |recomputedStackDelta fit frame (mainResult fit frame opts b)| then
        [Note.stackDeltaNote (recomputedStackDelta fit frame (mainResult fit frame opts b))]
      else []) ++
      (if 5 < |recomputedReachDelta fit frame (mainResult fit frame opts b)| then
        [Note.reachDeltaNote (recomputedReachDelta fit frame (mainResult fit frame opts b))]
      else []) ++
      (if nearestCommonStemLength b.stemLength ≠ b.stemLength then
        [Note.nearestCommonStem (nearestCommonStemLength b.stemLength)]
      else []) := rfl

theorem forwardSaddle_not_in_solver (fit : FitPosition) (frame : FrameGeometry)
    (opts : SolverOptions) :
    Note.forwardSaddle ∉ (calculateStemRequirements fit frame opts).notes := by
  rcases hsb : searchBest (mkCtx fit frame opts) with _ | b
  · rw [calculateStemRequirements_of_none hsb, fallbackResult_notes]
    simp
  · rw [calculateStemRequirements_of_some hsb, mainResult_notes]
    intro hmem
    rcases List.mem_append.mp hmem with hmem1 | hmem3
    · rcases List.mem_append.mp hmem1 with hmem2 | hmem2
      all_goals
        revert hmem2
        split_ifs <;> simp
    · revert hmem3
      split_ifs <;> simp

theorem forwardSaddle_not_in_offset (d : RetulFitData) (f : FrameGeometry) :
    Note.forwardSaddle ∉ (setupOffsetPair d f).2 := by
  simp only [setupOffsetPair]
  split_ifs <;> simp

theorem cos_ub_of_abs_le_one {x : ℝ} (hx : |x| ≤ 1) :
    Real.cos x ≤ 1 - x ^ 2 / 2 + |x| ^ 4 * (5 / 96) := by
  have h := Real.cos_bound hx
  rw [abs_le] at h
  linarith [h.1, h.2]

theorem sin_degToRad_76_le : Real.sin (degToRad 76) ≤ 0.98 := by
  have hrw : degToRad 76 = Real.pi / 2 - 14 * Real.pi / 180 := by
    unfold degToRad
    ring
  rw [hrw, Real.sin_pi_div_two_sub]
  have hpil : (3.1415 : ℝ) < Real.pi := Real.pi_gt_d4
  have hpiu : Real.pi < 3.1416 := Real.pi_lt_d4
  set x : ℝ := 14 * Real.pi / 180 with hxdef
  have hxlo : (0.2443 : ℝ) ≤ x := by rw [hxdef]; nlinarith
  have hxhi : x ≤ (0.24435 : ℝ) := by rw [hxdef]; nlinarith
  have hxpos : (0 : ℝ) < x := by linarith
  have hxabs : |x| ≤ 0.24435 := by rw [abs_of_pos hxpos]; exact hxhi
  have hub := cos_ub_of_abs_le_one (le_trans hxabs (by norm_num))
  have h2 : (0.2443 : ℝ) ^ 2 ≤ x ^ 2 := pow_le_pow_left₀ (by norm_num) hxlo 2
  have h4 : |x| ^ 4 ≤ (0.24435 : ℝ) ^ 4 := pow_le_pow_left₀ (abs_nonneg x) hxabs 4
  nlinarith

theorem sin_degToRad_76_pos : 0 < Real.sin (degToRad 76) := by
  apply Real.sin_pos_of_pos_of_lt_pi
  · unfold degToRad
    have := Real.pi_pos
    positivity
  · unfold degToRad
    have := Real.pi_pos
    nlinarith

theorem sin_degToRad_90 : Real.sin (degToRad 90) = 1 := by
  have hrw : degToRad 90 = Real.pi / 2 := by
    unfold degToRad
    ring
  rw [hrw, Real.sin_pi_div_two]

theorem tan_one_deg_lb : (1 / 150 : ℝ) < Real.tan (degToRad 1) := by
  have hpil : (3.1415 : ℝ) < Real.pi := Real.pi_gt_d4
  have h1 : (0 : ℝ) < degToRad 1 := by
    unfold degToRad
    have := Real.pi_pos
    positivity
  have h2 : degToRad 1 < Real.pi / 2 := by
    unfold degToRad
    have := Real.pi_pos
    nlinarith
  have h3 := Real.lt_tan h1 h2
  have h4 : (1 / 150 : ℝ) < degToRad 1 := by
    unfold degToRad
    nlinarith
  linarith

theorem ext_230 (d : RetulFitData) (hsh : d.fitPosition.saddleHeight = 750) :
    setupSeatpostExtension d c3Frame = some 230 := by
  rw [setupSeatpostExtension_some d c3Frame 520 rfl (by norm_num)]
  have hangle : jsOrOpt c3Frame.seatTubeAngle
      (jsOrNum d.fitPosition.effectiveSeatTubeAngle 73) = 90 := by
    show jsOrNum (90 : ℝ) _ = 90
    exact jsOrNum_of_ne _ (by norm_num)
  rw [hangle, hsh, sin_degToRad_90]
  unfold jsRound
  norm_num

/-- C1: whenever no `(spacer, stemAngle)` grid candidate yields an averaged
stem length within `[minStemLength, maxStemLength]` (near-vertical candidates
being skipped), `calculateStemRequirements` does not fail but returns the
fallback: `spacerStack = maxSpacers`, `stemLength = 100`,
`stemAngle = preferredStemAngle`, deltas computed as achieved minus target for
that fallback, `isAchievable = false`, and the not-achievable note. -/
theorem c1_fallback_on_infeasible (fit : FitPosition) (frame : FrameGeometry)
    (opts : SolverOptions)
    (h : ∀ s ∈ spacerGrid opts.maxSpacers, ∀ a ∈ angleGrid,
      0.1 ≤ |Real.cos (stemEffectiveAngle (jsOrNum frame.headTubeAngle 73) a)| →
      ¬(opts.minStemLength ≤ averagedStemLength (mkCtx fit frame opts) s a ∧
        averagedStemLength (mkCtx fit frame opts) s a ≤ opts.maxStemLength)) :
    calculateStemRequirements fit frame opts =
      { stemLength := 100
        stemAngle := opts.preferredStemAngle
        spacerStack := opts.maxSpacers
        stackDelta := frame.stackMm +
            opts.maxSpacers * Real.sin (degToRad (jsOrNum frame.headTubeAngle 73)) +
            100 * Real.sin (stemEffectiveAngle (jsOrNum frame.headTubeAngle 73)
              opts.preferredStemAngle) - fit.handlebarStack
        reachDelta := frame.reachMm +
            opts.maxSpacers * Real.cos (degToRad (jsOrNum frame.headTubeAngle 73)) +
            100 * Real.cos (stemEffectiveAngle (jsOrNum frame.headTubeAngle 73)
              opts.preferredStemAngle) - fit.handlebarReach
        isAchievable := false
        notes := [Note.exactFitNotAchievable] } := by
  have hnone : searchBest (mkCtx fit frame opts) = none :=
    searchBest_none_of_invalid h
  rw [calculateStemRequirements_of_none hnone]
  rfl

/-- C1 witness: with `minStemLength = 200 > 100 = maxStemLength` no candidate
can satisfy both bounds, so the solver returns the fallback at this concrete
input. -/
theorem c1_fallback_witness :
    calculateStemRequirements c2Fit c2Frame c1Opts =
      { stemLength := 100
        stemAngle := -6
        spacerStack := 50
        stackDelta := 530 + 50 * Real.sin (degToRad (jsOrNum 73 73)) +
            100 * Real.sin (stemEffectiveAngle (jsOrNum 73 73) (-6)) - 530
        reachDelta := 390 + 50 * Real.cos (degToRad (jsOrNum 73 73)) +
            100 * Real.cos (stemEffectiveAngle (jsOrNum 73 73) (-6)) - 390
        isAchievable := false
        notes := [Note.exactFitNotAchievable] } := by
  have happ := c1_fallback_on_infeasible c2Fit c2Frame c1Opts (by
    intro s hs a ha hcos
    rintro ⟨hle1, hle2⟩
    have hchain := le_trans hle1 hle2
    revert hchain
    norm_num [c1Opts])
  rw [happ]
  rfl

/-- C2 counterexample: at the zero-gap scenario input (target 530/390 on a
530/390/73° frame, default config) the claimed result is impossible — every
zero-spacer candidate computes the averaged stem length `0`, below
`minStemLength = 60`, so `spacerStack = 0` is never returned. -/
theorem c2_zero_gap_counterexample :
    ¬((calculateStemRequirements c2Fit c2Frame {}).spacerStack = 0 ∧
      (70 ≤ (calculateStemRequirements c2Fit c2Frame {}).stemLength ∧
        (calculateStemRequirements c2Fit c2Frame {}).stemLength ≤ 110) ∧
      (calculateStemRequirements c2Fit c2Frame {}).isAchievable = true) := by
  rintro ⟨h0, -, -⟩
  exact c2_spacer_ne h0

/-- C2 (amended): at the zero-gap scenario input the solver returns
`spacerStack ≠ 0` and `isAchievable = false` — with zero required gains every
candidate overshoots the handlebar reach by at least a minimum stem length. -/
theorem c2_zero_gap_amended :
    (calculateStemRequirements c2Fit c2Frame {}).spacerStack ≠ 0 ∧
    (calculateStemRequirements c2Fit c2Frame {}).isAchievable = false :=
  ⟨c2_spacer_ne, c2_not_achievable⟩

/-- C5 counterexample: on a main-path input the returned `reachDelta` is the
rounding of the recomputed delta, which here differs from the recomputed value
by `0.4 mm`, far beyond the claimed `1e-6 mm` tolerance. -/
theorem c5_delta_counterexample :
    1 / 1000000 <
      |(calculateStemRequirements c5Fit c6Frame scOpts).reachDelta -
        recomputedReachDelta c5Fit c6Frame
          (calculateStemRequirements c5Fit c6Frame scOpts)| := by
  rw [c5_result]
  simp only [recomputedReachDelta]
  have hj : jsOrNum (90 : ℝ) 73 = 90 := jsOrNum_of_ne 73 (by norm_num)
  simp only [c6Frame, c5Fit]
  simp only [hj, stemEffectiveAngle_90_zero, Real.cos_zero]
  norm_num [abs_of_nonneg]

/-- C5 (amended): on the non-fallback path the returned deltas are exactly the
JavaScript rounding of the deltas recomputed from the returned
`(spacerStack, stemLength, stemAngle)`, hence reproduce them to within 1/2 mm
(not 1e-6: the source rounds with `Math.round`). -/
theorem c5_delta_amended (fit : FitPosition) (frame : FrameGeometry)
    (opts : SolverOptions) (h : searchBest (mkCtx fit frame opts) ≠ none) :
    (calculateStemRequirements fit frame opts).stackDelta =
      jsRound (recomputedStackDelta fit frame
        (calculateStemRequirements fit frame opts)) ∧
    (calculateStemRequirements fit frame opts).reachDelta =
      jsRound (recomputedReachDelta fit frame
        (calculateStemRequirements fit frame opts)) ∧
    |(calculateStemRequirements fit frame opts).stackDelta -
      recomputedStackDelta fit frame (calculateStemRequirements fit frame opts)| ≤ 1/2 ∧
    |(calculateStemRequirements fit frame opts).reachDelta -
      recomputedReachDelta fit frame (calculateStemRequirements fit frame opts)| ≤ 1/2 := by
  rcases hsb : searchBest (mkCtx fit frame opts) with _ | b
  · exact absurd hsb h
  · rw [calculateStemRequirements_of_some hsb]
    refine ⟨mainResult_stackDelta fit frame opts b,
      mainResult_reachDelta fit frame opts b, ?_, ?_⟩
    · rw [mainResult_stackDelta fit frame opts b]
      exact abs_jsRound_sub_le _
    · rw [mainResult_reachDelta fit frame opts b]
      exact abs_jsRound_sub_le _

/-- C5 witness: the amended delta relation, instantiated at the concrete
main-path input of the counterexample. -/
theorem c5_delta_witness :
    (calculateStemRequirements c5Fit c6Frame scOpts).stackDelta =
      jsRound (recomputedStackDelta c5Fit c6Frame
        (calculateStemRequirements c5Fit c6Frame scOpts)) ∧
    (calculateStemRequirements c5Fit c6Frame scOpts).reachDelta =
      jsRound (recomputedReachDelta c5Fit c6Frame
        (calculateStemRequirements c5Fit c6Frame scOpts)) ∧
    |(calculateStemRequirements c5Fit c6Frame scOpts).stackDelta -
      recomputedStackDelta c5Fit c6Frame
        (calculateStemRequirements c5Fit c6Frame scOpts)| ≤ 1/2 ∧
    |(calculateStemRequirements c5Fit c6Frame scOpts).reachDelta -
      recomputedReachDelta c5Fit c6Frame
        (calculateStemRequirements c5Fit c6Frame scOpts)| ≤ 1/2 :=
  c5_delta_amended c5Fit c6Frame scOpts (by
    rw [c5_search]
    exact Option.some_ne_none _)

/-- C6 counterexample: with the non-integer bound `minStemLength = 100.2` the
solver rounds the raw length `100.3` down to `100`, returns
`isAchievable = true`, yet `stemLength = 100` lies outside
`[minStemLength, maxStemLength]`. -/
theorem c6_bounds_counterexample :
    (calculateStemRequirements c6Fit c6Frame scOpts).isAchievable = true ∧
    ¬(scOpts.minStemLength ≤ (calculateStemRequirements c6Fit c6Frame scOpts).stemLength ∧
      (calculateStemRequirements c6Fit c6Frame scOpts).stemLength ≤
        scOpts.maxStemLength) := by
  rw [c6_result]
  constructor
  · rfl
  · rintro ⟨h1, -⟩
    revert h1
    norm_num [scOpts]

/-- C6 (amended): whenever `isAchievable = true`, the returned `stemLength` is
the rounding of a raw value in `[minStemLength, maxStemLength]` (so lies
within 1/2 mm of that interval), and `spacerStack` is a multiple of 5 in
`[0, maxSpacers]`. -/
theorem c6_bounds_amended (fit : FitPosition) (frame : FrameGeometry)
    (opts : SolverOptions)
    (h : (calculateStemRequirements fit frame opts).isAchievable = true) :
    (opts.minStemLength - 1/2 ≤ (calculateStemRequirements fit frame opts).stemLength ∧
      (calculateStemRequirements fit frame opts).stemLength ≤
        opts.maxStemLength + 1/2) ∧
    (∃ i : ℕ, (calculateStemRequirements fit frame opts).spacerStack = 5 * (i : ℝ)) ∧
    0 ≤ (calculateStemRequirements fit frame opts).spacerStack ∧
    (calculateStemRequirements fit frame opts).spacerStack ≤ opts.maxSpacers := by
  rcases hsb : searchBest (mkCtx fit frame opts) with _ | b
  · rw [calculateStemRequirements_of_none hsb, fallbackResult_isAchievable] at h
    exact absurd h (by simp)
  · rw [calculateStemRequirements_of_some hsb]
    rcases searchBest_some_spec hsb with ⟨p, hp, heval⟩
    rcases evalCandidate_some_spec heval with ⟨hbs, -, hbl, hmin, hmax, -⟩
    rcases gridPairs_mem.mp hp with ⟨hp1, -⟩
    obtain ⟨i, hi5, hi0, him⟩ := spacerGrid_mem hp1
    have hround := abs_jsRound_sub_le (averagedStemLength (mkCtx fit frame opts) p.1 p.2)
    rw [abs_le] at hround
    constructor
    · rw [mainResult_stemLength, hbl]
      constructor
      · have hm : opts.minStemLength ≤
            averagedStemLength (mkCtx fit frame opts) p.1 p.2 := hmin
        linarith [hround.1]
      · have hm : averagedStemLength (mkCtx fit frame opts) p.1 p.2 ≤
            opts.maxStemLength := hmax
        linarith [hround.2]
    · rw [mainResult_spacerStack, hbs]
      have hm2 : p.1 ≤ opts.maxSpacers := him
      exact ⟨⟨i, hi5⟩, hi0, hm2⟩

/-- C6 witness: the amended bounds at the concrete achievable input of the
counterexample (`stemLength = 100` is within 1/2 mm of `[100.2, 140]`, and
`spacerStack = 0 = 5·0 ∈ [0, 0]`). -/
theorem c6_bounds_witness :
    (scOpts.minStemLength - 1/2 ≤ (calculateStemRequirements c6Fit c6Frame scOpts).stemLength ∧
      (calculateStemRequirements c6Fit c6Frame scOpts).stemLength ≤
        scOpts.maxStemLength + 1/2) ∧
    (∃ i : ℕ, (calculateStemRequirements c6Fit c6Frame scOpts).spacerStack = 5 * (i : ℝ)) ∧
    0 ≤ (calculateStemRequirements c6Fit c6Frame scOpts).spacerStack ∧
    (calculateStemRequirements c6Fit c6Frame scOpts).spacerStack ≤ scOpts.maxSpacers :=
  c6_bounds_amended c6Fit c6Frame scOpts (by rw [c6_result])

/-- C3 (amended): the returned `effectiveSeatTubeAngle` is always the fit's
`effectiveSeatTubeAngle`, and when `seatTubeLengthMm` is present and nonzero
the seatpost extension projects the saddle height along
`frame.seatTubeAngle || effectiveSeatTubeAngle || 73` — the frame angle takes
precedence, not the fit's effective angle as the claim states. -/
theorem c3_seatpost_amended (d : RetulFitData) (f : FrameGeometry) (stl : ℝ)
    (h : f.seatTubeLengthMm = some stl) (hne : stl ≠ 0) :
    (calculateBikeSetup d f).effectiveSeatTubeAngle =
      d.fitPosition.effectiveSeatTubeAngle ∧
    (calculateBikeSetup d f).seatpostExtension =
      some (jsRound (d.fitPosition.saddleHeight /
        Real.sin (degToRad (jsOrOpt f.seatTubeAngle
          (jsOrNum d.fitPosition.effectiveSeatTubeAngle 73))) - stl)) :=
  ⟨rfl, by rw [calculateBikeSetup_ext, setupSeatpostExtension_some d f stl h hne]⟩

/-- C3 witness: at a frame with a vertical seat tube (`seatTubeAngle = 90`,
`sin = 1` exactly) and `seatTubeLengthMm = 520`, the amended formula gives
extension `round(750 / 1 - 520) = 230`. -/
theorem c3_seatpost_witness :
    c3Frame.seatTubeLengthMm = some 520 ∧ (520 : ℝ) ≠ 0 ∧
    (calculateBikeSetup c3FitData c3Frame).seatpostExtension =
      some (jsRound ((750 : ℝ) /
        Real.sin (degToRad (jsOrOpt c3Frame.seatTubeAngle
          (jsOrNum c3FitData.fitPosition.effectiveSeatTubeAngle 73))) - 520)) := by
  refine ⟨rfl, by norm_num, ?_⟩
  exact (c3_seatpost_amended c3FitData c3Frame 520 rfl (by norm_num)).2

/-- C3 counterexample: at `effectiveSeatTubeAngle = 76`,
`frame.seatTubeAngle = 90`, `saddleHeight = 750`, `seatTubeLengthMm = 520`,
the code returns extension `230` (projecting along the frame's 90° seat
tube), while the claim's formula (projecting along the fit's 76°) yields at
least `231`. -/
theorem c3_seatpost_counterexample :
    c3Frame.seatTubeLengthMm = some 520 ∧
    (calculateBikeSetup c3FitData c3Frame).seatpostExtension = some 230 ∧
    specSeatpostExtension c3FitData 520 ≠ 230 := by
  refine ⟨rfl, ?_, ?_⟩
  · rw [calculateBikeSetup_ext]
    exact ext_230 c3FitData rfl
  · intro heq
    simp only [specSeatpostExtension, specEffectiveSeatTubeAngle, c3FitData] at heq
    have hsinle := sin_degToRad_76_le
    have hsinpos := sin_degToRad_76_pos
    have hx : (765 : ℝ) ≤ 750 / Real.sin (degToRad 76) := by
      rw [le_div_iff₀ hsinpos]
      nlinarith
    have h231 : (231 : ℝ) ≤ jsRound (750 / Real.sin (degToRad 76) - 520) :=
      le_jsRound 231 _ (by push_cast; linarith)
    rw [heq] at h231
    norm_num at h231

/-- C4 (amended): with `staDifference` computed against the truthy fallback
`frame.seatTubeAngle || 73` (a present `0` falls back to `73`, unlike the
claim's `?? 73`), whenever `|staDifference| > 0.5` the offset recommendation
follows the source's threshold chain, each recommending branch pushing a note
naming both angles. -/
theorem c4_offset_amended (d : RetulFitData) (f : FrameGeometry)
    (h : 0.5 < |setupStaDifference d f|) :
    (15 < setupSetbackDifference d f →
      (calculateBikeSetup d f).seatpostOffsetNeeded = 25 ∧
      Note.staSteeper25 (setupFrameSTA f) d.fitPosition.effectiveSeatTubeAngle ∈
        (calculateBikeSetup d f).notes) ∧
    (¬15 < setupSetbackDifference d f → 8 < setupSetbackDifference d f →
      (calculateBikeSetup d f).seatpostOffsetNeeded = 20 ∧
      Note.staSteeper20 (setupFrameSTA f) d.fitPosition.effectiveSeatTubeAngle ∈
        (calculateBikeSetup d f).notes) ∧
    (¬15 < setupSetbackDifference d f → ¬8 < setupSetbackDifference d f →
      setupSetbackDifference d f < -15 →
      (calculateBikeSetup d f).seatpostOffsetNeeded = 0 ∧
      Note.staSlacker0 (setupFrameSTA f) d.fitPosition.effectiveSeatTubeAngle ∈
        (calculateBikeSetup d f).notes) ∧
    (¬15 < setupSetbackDifference d f → ¬8 < setupSetbackDifference d f →
      ¬setupSetbackDifference d f < -15 →
      (calculateBikeSetup d f).seatpostOffsetNeeded = 0) := by
  refine ⟨?_, ?_, ?_, ?_⟩
  · intro h15
    have hpair := setupOffsetPair_25 d f h h15
    constructor
    · rw [calculateBikeSetup_offset, hpair]
    · rw [calculateBikeSetup_notes, hpair]
      refine List.mem_append.mpr (Or.inr (List.mem_append.mpr (Or.inl ?_)))
      exact List.mem_singleton.mpr rfl
  · intro h15 h8
    have hpair := setupOffsetPair_20 d f h h15 h8
    constructor
    · rw [calculateBikeSetup_offset, hpair]
    · rw [calculateBikeSetup_notes, hpair]
      refine List.mem_append.mpr (Or.inr (List.mem_append.mpr (Or.inl ?_)))
      exact List.mem_singleton.mpr rfl
  · intro h15 h8 hm15
    have hpair := setupOffsetPair_slacker d f h h15 h8 hm15
    constructor
    · rw [calculateBikeSetup_offset, hpair]
    · rw [calculateBikeSetup_notes, hpair]
      refine List.mem_append.mpr (Or.inr (List.mem_append.mpr (Or.inl ?_)))
      exact List.mem_singleton.mpr rfl
  · intro h15 h8 hm15
    rw [calculateBikeSetup_offset, setupOffsetPair_mid d f h h15 h8 hm15]

/-- C4 witness: the claim's own instance — `effectiveSeatTubeAngle = 76`,
`frame.seatTubeAngle = 73`, `saddleHeight = 750` gives `staDifference = 3`,
`setbackDifference = 3 · 750 · tan(1°) ≈ 39.3 > 15`, hence a 25 mm offset
post and the steeper-frame note. -/
theorem c4_offset_witness :
    (calculateBikeSetup c4FitData c4Frame).seatpostOffsetNeeded = 25 ∧
    Note.staSteeper25 73 76 ∈ (calculateBikeSetup c4FitData c4Frame).notes := by
  have hfsta : setupFrameSTA c4Frame = 73 := jsOrNum_of_ne 73 (by norm_num)
  have hsd : setupStaDifference c4FitData c4Frame = 3 := by
    unfold setupStaDifference
    rw [hfsta]
    norm_num [c4FitData]
  have h05 : 0.5 < |setupStaDifference c4FitData c4Frame| := by
    rw [hsd]
    rw [abs_of_nonneg (by norm_num : (0 : ℝ) ≤ 3)]
    norm_num
  have h15 : 15 < setupSetbackDifference c4FitData c4Frame := by
    unfold setupSetbackDifference
    rw [hsd]
    have hsh : c4FitData.fitPosition.saddleHeight = 750 := rfl
    rw [hsh]
    nlinarith [tan_one_deg_lb]
  have happ := (c4_offset_amended c4FitData c4Frame h05).1 h15
  refine ⟨happ.1, ?_⟩
  have h2 := happ.2
  rw [hfsta] at h2
  exact h2

/-- C4 counterexample: with `frame.seatTubeAngle` present but `0` and
`effectiveSeatTubeAngle = 10`, the claim's `?? 73` formula gives
`staDifference = 10` and `setbackDifference ≈ 131 > 15`, demanding a 25 mm
offset; the code's `|| 73` instead yields `staDifference = -63` and
recommends `0`. -/
theorem c4_offset_counterexample :
    0.5 < |specStaDifference c4bFitData c4bFrame| ∧
    15 < specSetbackDifference c4bFitData c4bFrame ∧
    (calculateBikeSetup c4bFitData c4bFrame).seatpostOffsetNeeded ≠ 25 := by
  have htan := tan_one_deg_lb
  have htanpos : 0 < Real.tan (degToRad 1) := lt_trans (by norm_num) htan
  have hspec : specStaDifference c4bFitData c4bFrame = 10 := by
    norm_num [specStaDifference, c4bFitData, c4bFrame]
  refine ⟨?_, ?_, ?_⟩
  · rw [hspec]
    rw [abs_of_nonneg (by norm_num : (0 : ℝ) ≤ 10)]
    norm_num
  · unfold specSetbackDifference
    rw [hspec]
    have hsh : c4bFitData.fitPosition.saddleHeight = 750 := rfl
    rw [hsh]
    nlinarith [htan]
  · have hfsta : setupFrameSTA c4bFrame = 73 := jsOrNum_zero 73
    have hsd : setupStaDifference c4bFitData c4bFrame = -63 := by
      unfold setupStaDifference
      rw [hfsta]
      norm_num [c4bFitData]
    have h05 : 0.5 < |setupStaDifference c4bFitData c4bFrame| := by
      rw [hsd]
      rw [abs_of_nonpos (by norm_num : (-63 : ℝ) ≤ 0)]
      norm_num
    have hsb : setupSetbackDifference c4bFitData c4bFrame =
        -63 * (750 * Real.tan (degToRad 1)) := by
      unfold setupSetbackDifference
      rw [hsd]
      rfl
    have h2 : ¬15 < setupSetbackDifference c4bFitData c4bFrame := by
      rw [hsb]
      nlinarith [htanpos]
    have h3 : ¬8 < setupSetbackDifference c4bFitData c4bFrame := by
      rw [hsb]
      nlinarith [htanpos]
    have h4 : setupSetbackDifference c4bFitData c4bFrame < -15 := by
      rw [hsb]
      nlinarith [htan]
    rw [calculateBikeSetup_offset,
      setupOffsetPair_slacker c4bFitData c4bFrame h05 h2 h3 h4]
    norm_num

/-- C7 (amended): when the computed seatpost extension exists, the low warning
is emitted exactly when it is below 50 and the high warning exactly when it is
above 200; when no extension is computed (absent or zero `seatTubeLengthMm`),
there are no warnings. -/
theorem c7_warning_amended (d : RetulFitData) (f : FrameGeometry) :
    (∀ e : ℝ, (calculateBikeSetup d f).seatpostExtension = some e →
      ((Note.lowSeatpostExtension e ∈ (calculateBikeSetup d f).warnings ↔ e < 50) ∧
       (Note.highSeatpostExtension e ∈ (calculateBikeSetup d f).warnings ↔ 200 < e))) ∧
    ((calculateBikeSetup d f).seatpostExtension = none →
      (calculateBikeSetup d f).warnings = []) := by
  constructor
  · intro e he
    rw [calculateBikeSetup_ext] at he
    rw [calculateBikeSetup_warns, setupWarnings_of_some d f e he]
    by_cases h50 : e < 50 <;> by_cases h200 : 200 < e <;> simp [h50, h200]
  · intro hnone
    rw [calculateBikeSetup_ext] at hnone
    rw [calculateBikeSetup_warns, setupWarnings_of_none d f hnone]

/-- C7 witness: a present, nonzero `seatTubeLengthMm = 520` at a vertical
seat tube gives extension `230 > 200`, and exactly the high warning. -/
theorem c7_warning_witness :
    (calculateBikeSetup c7FitData c3Frame).seatpostExtension = some 230 ∧
    Note.highSeatpostExtension 230 ∈ (calculateBikeSetup c7FitData c3Frame).warnings := by
  have hext : (calculateBikeSetup c7FitData c3Frame).seatpostExtension = some 230 := by
    rw [calculateBikeSetup_ext]
    exact ext_230 c7FitData rfl
  refine ⟨hext, ?_⟩
  exact ((c7_warning_amended c7FitData c3Frame).1 230 hext).2.mpr (by norm_num)

/-- C7 counterexample: `seatTubeLengthMm` present but `0` is falsy in the
source, so no extension and no warning are produced, although the claim's
computed extension `round(750 / sin(90°) - 0) = 750` exceeds 200 and would
demand a warning. -/
theorem c7_truthiness_counterexample :
    c7Frame.seatTubeLengthMm = some 0 ∧
    (calculateBikeSetup c7FitData c7Frame).seatpostExtension = none ∧
    (calculateBikeSetup c7FitData c7Frame).warnings = [] ∧
    200 < jsRound ((750 : ℝ) / Real.sin (degToRad 90) - 0) := by
  refine ⟨rfl, ?_, ?_, ?_⟩
  · rw [calculateBikeSetup_ext]
    exact setupSeatpostExtension_zero c7FitData c7Frame rfl
  · rw [calculateBikeSetup_warns]
    exact setupWarnings_of_none c7FitData c7Frame
      (setupSeatpostExtension_zero c7FitData c7Frame rfl)
  · rw [sin_degToRad_90]
    unfold jsRound
    norm_num

/-- C8: both calculator entry points are pure functions of their arguments —
equal inputs give equal outputs, with no shared state between calls. -/
theorem c8_determinism (fp1 fp2 : FitPosition) (fr1 fr2 : FrameGeometry)
    (o1 o2 : SolverOptions) (d1 d2 : RetulFitData) (g1 g2 : FrameGeometry)
    (h1 : fp1 = fp2) (h2 : fr1 = fr2) (h3 : o1 = o2) (h4 : d1 = d2)
    (h5 : g1 = g2) :
    calculateStemRequirements fp1 fr1 o1 = calculateStemRequirements fp2 fr2 o2 ∧
    calculateBikeSetup d1 g1 = calculateBikeSetup d2 g2 := by
  subst h1
  subst h2
  subst h3
  subst h4
  subst h5
  exact ⟨rfl, rfl⟩

/-- C8 witness: determinism at concrete inputs. -/
theorem c8_determinism_witness :
    calculateStemRequirements c2Fit c2Frame {} = calculateStemRequirements c2Fit c2Frame {} ∧
    calculateBikeSetup c3FitData c3Frame = calculateBikeSetup c3FitData c3Frame :=
  c8_determinism c2Fit c2Fit c2Frame c2Frame {} {} c3FitData c3FitData c3Frame c3Frame
    rfl rfl rfl rfl rfl

/-- C9: a zero (falsy) `headTubeAngle` makes `calculateStemRequirements`
behave exactly as if the head tube angle were 73°: the entire result record
coincides with the one for the same frame with `headTubeAngle = 73`. -/
theorem c9_headTubeAngle_default (fit : FitPosition) (frame : FrameGeometry)
    (opts : SolverOptions) (h : frame.headTubeAngle = 0) :
    calculateStemRequirements fit frame opts =
      calculateStemRequirements fit { frame with headTubeAngle := 73 } opts := by
  have hctx : mkCtx fit frame opts = mkCtx fit { frame with headTubeAngle := 73 } opts := by
    unfold mkCtx
    rw [h]
    norm_num [jsOrNum]
  have hfb : fallbackResult fit frame opts =
      fallbackResult fit { frame with headTubeAngle := 73 } opts := by
    unfold fallbackResult
    rw [hctx]
  have hmr : ∀ b, mainResult fit frame opts b =
      mainResult fit { frame with headTubeAngle := 73 } opts b := by
    intro b
    unfold mainResult
    rw [hctx]
  unfold calculateStemRequirements
  rw [hctx]
  rcases searchBest (mkCtx fit { frame with headTubeAngle := 73 } opts) with _ | b
  · exact hfb
  · exact hmr b

/-- C9 witness: the default at a concrete frame with `headTubeAngle = 0`. -/
theorem c9_headTubeAngle_witness :
    calculateStemRequirements c2Fit c9Frame {} =
      calculateStemRequirements c2Fit { c9Frame with headTubeAngle := 73 } {} :=
  c9_headTubeAngle_default c2Fit c9Frame {} rfl

/-- C10: the setup calculator's notes extend the solver's notes; the
forward-saddle note is appended (after the solver and offset notes) exactly
when `|saddleSetback| < 50`, and is absent otherwise. -/
theorem c10_forward_saddle_note (d : RetulFitData) (f : FrameGeometry) :
    (∃ tail, (calculateBikeSetup d f).notes =
      (calculateStemRequirements d.fitPosition f {}).notes ++ tail) ∧
    (|d.fitPosition.saddleSetback| < 50 →
      (calculateBikeSetup d f).notes =
        (calculateStemRequirements d.fitPosition f {}).notes ++
          ((setupOffsetPair d f).2 ++ [Note.forwardSaddle]) ∧
      Note.forwardSaddle ∈ (calculateBikeSetup d f).notes) ∧
    (50 ≤ |d.fitPosition.saddleSetback| →
      Note.forwardSaddle ∉ (calculateBikeSetup d f).notes) := by
  refine ⟨⟨(setupOffsetPair d f).2 ++ setupSaddleNotes d, calculateBikeSetup_notes d f⟩,
    ?_, ?_⟩
  · intro h
    have hnotes : (calculateBikeSetup d f).notes =
        (calculateStemRequirements d.fitPosition f {}).notes ++
          ((setupOffsetPair d f).2 ++ [Note.forwardSaddle]) := by
      rw [calculateBikeSetup_notes, setupSaddleNotes_fwd d h]
    refine ⟨hnotes, ?_⟩
    rw [hnotes]
    refine List.mem_append.mpr (Or.inr (List.mem_append.mpr (Or.inr ?_)))
    exact List.mem_singleton.mpr rfl
  · intro h hmem
    rw [calculateBikeSetup_notes] at hmem
    rcases List.mem_append.mp hmem with h1 | h2
    · exact forwardSaddle_not_in_solver d.fitPosition f {} h1
    · rcases List.mem_append.mp h2 with h3 | h4
      · exact forwardSaddle_not_in_offset d f h3
      · rw [setupSaddleNotes_far d (not_lt.mpr h)] at h4
        exact absurd h4 (List.not_mem_nil _)

/-- C10 witness: `saddleSetback = -30` is within the forward threshold, so the
forward-saddle note is appended after the solver's notes. -/
theorem c10_forward_saddle_witness :
    (calculateBikeSetup c10FitData c2Frame).notes =
      (calculateStemRequirements c10FitData.fitPosition c2Frame {}).notes ++
        ((setupOffsetPair c10FitData c2Frame).2 ++ [Note.forwardSaddle]) ∧
    Note.forwardSaddle ∈ (calculateBikeSetup c10FitData c2Frame).notes :=
  (c10_forward_saddle_note c10FitData c2Frame).2.1 (by norm_num [c10FitData])
